import Mathlib

/-!
Verification of the artisthub-api-v1 serverless handlers.

The development shallowly embeds the JavaScript handler modules:

* the user CRUD handlers (createUser, getUserById, updateUser, listUsers,
  addWorkExperience, addPortfolioItem, addConnection);
* the casting-job handlers (updateJob, listJobs, applyForJob, addDocument,
  removeDocument);
* the bare task handlers (createTask);
* the API-gateway authorizer;
* the pagination-token pipeline (JSON serialization, UTF-8, base64).

Items are modelled as association lists of attribute names to loosely typed
JSON-like values, mirroring the DynamoDB document model the code works
against.  Each handler is a pure function of the parsed request pieces, the
current table contents, the generated uuid values and the current timestamp,
returning the HTTP response together with the table after the write.
-/

/-- A loosely typed JSON-like document value, as produced by JSON.parse and
stored by the DynamoDB document client. -/
inductive Val where
  | vNull : Val
  | vBool (b : Bool) : Val
  | vNum (n : Int) : Val
  | vStr (s : String) : Val
  | vList (xs : List Val) : Val
  | vObj (kvs : List (String × Val)) : Val

mutual

/-- Boolean equality on document values. -/
def Val.beq : Val → Val → Bool
  | .vNull, .vNull => true
  | .vBool a, .vBool b => a == b
  | .vNum a, .vNum b => a == b
  | .vStr a, .vStr b => a == b
  | .vList xs, .vList ys => Val.listBeq xs ys
  | .vObj xs, .vObj ys => Val.objBeq xs ys
  | _, _ => false

/-- Boolean equality on lists of document values. -/
def Val.listBeq : List Val → List Val → Bool
  | [], [] => true
  | x :: xs, y :: ys => Val.beq x y && Val.listBeq xs ys
  | _, _ => false

/-- Boolean equality on attribute maps. -/
def Val.objBeq : List (String × Val) → List (String × Val) → Bool
  | [], [] => true
  | (k, v) :: xs, (l, w) :: ys => k == l && Val.beq v w && Val.objBeq xs ys
  | _, _ => false

end

theorem Val.sizeOf_pos (a : Val) : 0 < sizeOf a := by
  cases a <;> simp

theorem Val.beq_correct :
    ∀ n : Nat,
      (∀ a b : Val, sizeOf a ≤ n → (Val.beq a b = true ↔ a = b)) ∧
      (∀ xs ys : List Val, sizeOf xs ≤ n → (Val.listBeq xs ys = true ↔ xs = ys)) ∧
      (∀ xs ys : List (String × Val), sizeOf xs ≤ n →
        (Val.objBeq xs ys = true ↔ xs = ys)) := by
  intro n
  induction n with
  | zero =>
    refine ⟨fun a b ha => absurd ha ?_, fun xs ys hxs => absurd hxs ?_,
      fun xs ys hxs => absurd hxs ?_⟩
    · exact Nat.not_le.mpr (Val.sizeOf_pos a)
    · cases xs <;> simp
    · cases xs <;> simp
  | succ n ih =>
    obtain ⟨ihv, ihl, iho⟩ := ih
    refine ⟨?_, ?_, ?_⟩
    · intro a b ha
      cases a <;> cases b <;>
        simp only [Val.beq, beq_iff_eq, Val.vBool.injEq, Val.vNum.injEq,
          Val.vStr.injEq, Val.vList.injEq, Val.vObj.injEq, reduceCtorEq,
          Bool.false_eq_true, iff_true, iff_false, not_false_eq_true]
      · exact ihl _ _ (by simp at ha; omega)
      · exact iho _ _ (by simp at ha; omega)
    · intro xs ys hxs
      cases xs with
      | nil => cases ys <;> simp [Val.listBeq]
      | cons x xs =>
        cases ys with
        | nil => simp [Val.listBeq]
        | cons y ys =>
          simp only [List.cons.sizeOf_spec] at hxs
          have hx : sizeOf x ≤ n := by omega
          have hxs' : sizeOf xs ≤ n := by
            have := Val.sizeOf_pos x; omega
          simp only [Val.listBeq, Bool.and_eq_true, List.cons.injEq]
          rw [ihv x y hx, ihl xs ys hxs']
    · intro xs ys hxs
      cases xs with
      | nil => cases ys <;> simp [Val.objBeq]
      | cons x xs =>
        cases ys with
        | nil => cases x; simp [Val.objBeq]
        | cons y ys =>
          cases x with
          | mk k v =>
            cases y with
            | mk l w =>
              simp only [List.cons.sizeOf_spec, Prod.mk.sizeOf_spec] at hxs
              have hv : sizeOf v ≤ n := by omega
              have hxs' : sizeOf xs ≤ n := by
                have := Val.sizeOf_pos v; omega
              simp only [Val.objBeq, Bool.and_eq_true, List.cons.injEq,
                Prod.mk.injEq, beq_iff_eq]
              rw [ihv v w hv, iho xs ys hxs']

theorem Val.beq_iff (a b : Val) : Val.beq a b = true ↔ a = b :=
  (Val.beq_correct (sizeOf a)).1 a b le_rfl

instance : DecidableEq Val := fun a b => decidable_of_iff _ (Val.beq_iff a b)

instance : BEq Val := ⟨Val.beq⟩

instance : LawfulBEq Val where
  eq_of_beq h := (Val.beq_iff _ _).mp h
  rfl := (Val.beq_iff _ _).mpr rfl

/-- A stored item or a parsed JSON request body: an attribute map. -/
abbrev Item : Type := List (String × Val)


/-- Attribute lookup on an item; none models the JavaScript undefined. -/
def getAttr : Item → String → Option Val
  | [], _ => none
  | kv :: rest, k => if kv.1 == k then some kv.2 else getAttr rest k

/-- Property access v.k on a document value: objects look the key up, any
other value yields undefined.  (Access on null or undefined throws in
JavaScript; those paths are caught by the handler boundary and are not
exercised by the stored records, which are objects by construction.) -/
def getProp (v : Val) (k : String) : Option Val :=
  match v with
  | .vObj kvs => getAttr kvs k
  | _ => none

/-- Optional-chaining access a?.k on a possibly-absent value. -/
def getPath (o : Option Val) (k : String) : Option Val :=
  match o with
  | some v => getProp v k
  | none => none

/-- Truthiness of a JavaScript value (NaN is not modelled). -/
def truthy : Val → Bool
  | .vNull => false
  | .vBool b => b
  | .vNum n => n != 0
  | .vStr s => s != ""
  | .vList _ => true
  | .vObj _ => true

/-- Truthiness of a possibly-absent value. -/
def truthyOpt : Option Val → Bool
  | some v => truthy v
  | none => false

/-- The JavaScript default pattern a or-else d on an optional field. -/
def jsOr (o : Option Val) (d : Val) : Val :=
  match o with
  | some v => if truthy v then v else d
  | none => d

/-- Truthiness of an optional path or query parameter string. -/
def strTruthy : Option String → Bool
  | some s => s != ""
  | none => false

/-- Store an attribute value, replacing an existing binding (one SET clause). -/
def setAttr : Item → String → Val → Item
  | [], k, v => [(k, v)]
  | kv :: rest, k, v => if kv.1 == k then (k, v) :: rest else kv :: setAttr rest k v

/-- Apply a list of SET assignments to an item, left to right. -/
def applyAssignments (it : Item) (assigns : List (String × Val)) : Item :=
  assigns.foldl (fun acc kv => setAttr acc kv.1 kv.2) it

/-- An HTTP response: status code, headers, and the JSON value of the body. -/
structure Response where
  statusCode : Nat
  headers : List (String × Val)
  body : Val
deriving DecidableEq

/-- The fixed header set attached by the response helpers of the user,
casting and auth modules. -/
def corsHeaders : List (String × Val) :=
  [("Content-Type", Val.vStr "application/json"),
   ("Access-Control-Allow-Origin", Val.vStr "*"),
   ("Access-Control-Allow-Credentials", Val.vBool true)]

/-- Success response helper shared by the user, casting and auth modules. -/
def successResponse (statusCode : Nat) (body : Val) : Response :=
  { statusCode := statusCode, headers := corsHeaders, body := body }

/-- Conditional spread of the optional details into an error body; a falsy
details value is dropped, mirroring the source. -/
def detailsField (details : Option Val) : List (String × Val) :=
  match details with
  | some d => if truthy d then [("details", d)] else []
  | none => []

/-- Error response helper shared by the user, casting and auth modules. -/
def errorResponse (statusCode : Nat) (message : String) (details : Option Val) :
    Response :=
  { statusCode := statusCode
    headers := corsHeaders
    body := Val.vObj ([("success", Val.vBool false), ("message", Val.vStr message)] ++
      detailsField details) }

/-- Comma-separated join used by the validation error messages. -/
def joinComma : List String → String
  | [] => ""
  | [s] => s
  | s :: rest => s ++ ", " ++ joinComma rest

/-- Collect the required field names that are missing or falsy in the body;
null (none) when the body passes. -/
def validateRequiredFields (data : Item) (requiredFields : List String) :
    Option (List String) :=
  let missing := requiredFields.filter (fun f => !truthyOpt (getAttr data f))
  if missing.length = 0 then none else some missing

/-- A DynamoDB table: the list of stored items. -/
abbrev Table := List Item

/-- Point read by the table's string primary key (documentClient.get). -/
def dbGet : Table → String → String → Option Item
  | [], _, _ => none
  | it :: rest, keyName, keyVal =>
    if getAttr it keyName == some (Val.vStr keyVal) then some it
    else dbGet rest keyName keyVal

/-- Query of the usernameIndex secondary index for an exact match. -/
def queryUsernameIndex (table : Table) (username : Val) : List Item :=
  table.filter (fun it => getAttr it "username" == some username)

/-- documentClient.update with a SET expression: the first item matching the
key receives the assignments; DynamoDB creates the item when the key is
absent from the table. -/
def dbUpdate : Table → String → String → List (String × Val) → Table
  | [], keyName, keyVal, assigns =>
    [applyAssignments [(keyName, Val.vStr keyVal)] assigns]
  | it :: rest, keyName, keyVal, assigns =>
    if getAttr it keyName == some (Val.vStr keyVal) then
      applyAssignments it assigns :: rest
    else
      it :: dbUpdate rest keyName keyVal assigns

/-- DynamoDB list_append(if_not_exists(attr, empty), new) against the current
attribute value; stored list attributes are lists by construction. -/
def listAppend (current : Option Val) (newEntries : List Val) : Val :=
  match current with
  | some (Val.vList xs) => Val.vList (xs ++ newEntries)
  | _ => Val.vList newEntries

/-- The createUser handler (POST /users): validate username and email, check
the username index, then insert the fully defaulted user record. -/
def createUser (table : Table) (body : Item) (genUserId now : String) :
    Response × Table :=
  let username := getAttr body "username"
  let email := getAttr body "email"
  let basicDetails := (getAttr body "basicDetails").getD (Val.vObj [])
  match validateRequiredFields body ["username", "email"] with
  | some missing =>
    (errorResponse 400 ("Missing required fields: " ++ joinComma missing) none, table)
  | none =>
    if !(queryUsernameIndex table (username.getD Val.vNull)).isEmpty then
      (errorResponse 409 "Username already exists" none, table)
    else
      let user : Item :=
        [("userId", Val.vStr genUserId),
         ("username", username.getD Val.vNull),
         ("email", email.getD Val.vNull),
         ("privacy", jsOr (getAttr body "privacy") (Val.vStr "public")),
         ("currentPlan", jsOr (getAttr body "currentPlan") (Val.vStr "free")),
         ("view", Val.vNum 0),
         ("aboutMe", jsOr (getAttr body "aboutMe") (Val.vStr "")),
         ("device_tokens", jsOr (getAttr body "device_tokens") (Val.vList [])),
         ("subscription", Val.vObj
           [("activePlan",
             jsOr (getPath (getAttr body "subscription") "activePlan") (Val.vStr "free")),
            ("startDate", Val.vStr now),
            ("renewalDate",
             jsOr (getPath (getAttr body "subscription") "renewalDate") Val.vNull),
            ("status", Val.vStr "active")]),
         ("tokens", jsOr (getAttr body "tokens") (Val.vObj
           [("AccessToken", Val.vStr ""),
            ("RefreshToken", Val.vStr ""),
            ("IdToken", Val.vStr "")])),
         ("basicDetails", Val.vObj
           [("firstName", jsOr (getProp basicDetails "firstName") (Val.vStr "")),
            ("lastName", jsOr (getProp basicDetails "lastName") (Val.vStr "")),
            ("fullName", jsOr (getProp basicDetails "fullName") (Val.vStr "")),
            ("avatarUrl", jsOr (getProp basicDetails "avatarUrl") (Val.vStr "")),
            ("gender", jsOr (getProp basicDetails "gender") (Val.vStr "")),
            ("category", jsOr (getProp basicDetails "category") (Val.vList [])),
            ("birthDate", jsOr (getProp basicDetails "birthDate") Val.vNull),
            ("age", jsOr (getProp basicDetails "age") Val.vNull),
            ("city", jsOr (getProp basicDetails "city") (Val.vStr ""))]),
         ("contactDetails", Val.vObj
           [("email",
             jsOr (getPath (getAttr body "contactDetails") "email") (email.getD Val.vNull)),
            ("phone", jsOr (getPath (getAttr body "contactDetails") "phone") (Val.vStr "")),
            ("instagram",
             jsOr (getPath (getAttr body "contactDetails") "instagram") (Val.vStr "")),
            ("facebook",
             jsOr (getPath (getAttr body "contactDetails") "facebook") (Val.vStr "")),
            ("twitter",
             jsOr (getPath (getAttr body "contactDetails") "twitter") (Val.vStr "")),
            ("youtube",
             jsOr (getPath (getAttr body "contactDetails") "youtube") (Val.vStr ""))]),
         ("physicalStats", Val.vObj
           [("height", jsOr (getPath (getAttr body "physicalStats") "height") (Val.vStr "")),
            ("weight", jsOr (getPath (getAttr body "physicalStats") "weight") (Val.vStr "")),
            ("bust", jsOr (getPath (getAttr body "physicalStats") "bust") (Val.vStr "")),
            ("waist", jsOr (getPath (getAttr body "physicalStats") "waist") (Val.vStr "")),
            ("hips", jsOr (getPath (getAttr body "physicalStats") "hips") (Val.vStr "")),
            ("chest", jsOr (getPath (getAttr body "physicalStats") "chest") (Val.vStr "")),
            ("biceps", jsOr (getPath (getAttr body "physicalStats") "biceps") (Val.vStr "")),
            ("hairType", jsOr (getPath (getAttr body "physicalStats") "hairType") (Val.vStr "")),
            ("hairLength",
             jsOr (getPath (getAttr body "physicalStats") "hairLength") (Val.vStr ""))]),
         ("skills", Val.vObj
           [("languages", jsOr (getPath (getAttr body "skills") "languages") (Val.vList [])),
            ("expertise", jsOr (getPath (getAttr body "skills") "expertise") (Val.vList [])),
            ("hobbies", jsOr (getPath (getAttr body "skills") "hobbies") (Val.vList []))]),
         ("workExperience", jsOr (getAttr body "workExperience") (Val.vList [])),
         ("portfolio", jsOr (getAttr body "portfolio") (Val.vList [])),
         ("appliedJobs", jsOr (getAttr body "appliedJobs") (Val.vList [])),
         ("requestSent", jsOr (getAttr body "requestSent") (Val.vList [])),
         ("requestReceived", jsOr (getAttr body "requestReceived") (Val.vList [])),
         ("connections", jsOr (getAttr body "connections") (Val.vList [])),
         ("createdAt", Val.vStr now),
         ("updatedAt", Val.vStr now)]
      if (dbGet table "userId" genUserId).isSome then
        (errorResponse 409 "User already exists" none, table)
      else
        (successResponse 201 (Val.vObj
          [("success", Val.vBool true),
           ("message", Val.vStr "User created successfully"),
           ("user", Val.vObj user)]),
         table ++ [user])

/-- The getUserById handler (GET /users/userId). -/
def getUserById (table : Table) (pathUserId : Option String) : Response :=
  if !strTruthy pathUserId then
    errorResponse 400 "Missing required parameter: userId" none
  else
    match dbGet table "userId" (pathUserId.getD "") with
    | none => errorResponse 404 "User not found" none
    | some item =>
      successResponse 200 (Val.vObj
        [("success", Val.vBool true), ("user", Val.vObj item)])

/-- The fixed allow-list of updateable user fields. -/
def userUpdateableFields : List String :=
  ["username", "email", "privacy", "currentPlan", "view", "aboutMe",
   "device_tokens", "subscription", "tokens", "basicDetails",
   "contactDetails", "physicalStats", "skills", "workExperience",
   "portfolio", "appliedJobs", "requestSent", "requestReceived", "connections"]

/-- The assignments built by the dynamic-update loop: one per present
updateable field, followed unconditionally by the updatedAt bump. -/
def buildUpdateAssignments (fields : List String) (body : Item) (now : String) :
    List (String × Val) :=
  (fields.filterMap (fun f => (getAttr body f).map (fun v => (f, v)))) ++
    [("updatedAt", Val.vStr now)]

/-- The updateUser handler (PUT /users/userId). -/
def updateUser (table : Table) (pathUserId : Option String) (body : Item)
    (now : String) : Response × Table :=
  if !strTruthy pathUserId then
    (errorResponse 400 "Missing required parameter: userId" none, table)
  else
    let uid := pathUserId.getD ""
    match dbGet table "userId" uid with
    | none => (errorResponse 404 "User not found" none, table)
    | some existingUser =>
      let usernameTaken :=
        match getAttr body "username" with
        | some u =>
          truthy u && !(some u == getAttr existingUser "username") &&
            !(queryUsernameIndex table u).isEmpty
        | none => false
      if usernameTaken then
        (errorResponse 409 "Username already exists" none, table)
      else
        let assigns := buildUpdateAssignments userUpdateableFields body now
        if assigns.length = 0 then
          (errorResponse 400 "No fields to update" none, table)
        else
          (successResponse 200 (Val.vObj
            [("success", Val.vBool true),
             ("message", Val.vStr "User updated successfully"),
             ("user", Val.vObj (applyAssignments existingUser assigns))]),
           dbUpdate table "userId" uid assigns)

/-- The addWorkExperience handler (POST /users/userId/work-experience). -/
def addWorkExperience (table : Table) (pathUserId : Option String) (body : Item)
    (genWorkExperienceId now : String) : Response × Table :=
  if !strTruthy pathUserId then
    (errorResponse 400 "Missing required parameter: userId" none, table)
  else
    match validateRequiredFields body ["workType", "brand"] with
    | some missing =>
      (errorResponse 400 ("Missing required fields: " ++ joinComma missing) none, table)
    | none =>
      let uid := pathUserId.getD ""
      match dbGet table "userId" uid with
      | none => (errorResponse 404 "User not found" none, table)
      | some existingUser =>
        let newWork := Val.vObj
          [("id", Val.vStr genWorkExperienceId),
           ("workType", (getAttr body "workType").getD Val.vNull),
           ("brand", (getAttr body "brand").getD Val.vNull),
           ("verified", (getAttr body "verified").getD (Val.vBool false)),
           ("workLink", jsOr (getAttr body "workLink") (Val.vStr "")),
           ("createdAt", Val.vStr now)]
        let assigns :=
          [("workExperience", listAppend (getAttr existingUser "workExperience") [newWork]),
           ("updatedAt", Val.vStr now)]
        (successResponse 201 (Val.vObj
          [("success", Val.vBool true),
           ("message", Val.vStr "Work experience added"),
           ("workExperience", newWork),
           ("user", Val.vObj (applyAssignments existingUser assigns))]),
         dbUpdate table "userId" uid assigns)

/-- The addPortfolioItem handler (POST /users/userId/portfolio). -/
def addPortfolioItem (table : Table) (pathUserId : Option String) (body : Item)
    (genPortfolioId now : String) : Response × Table :=
  if !strTruthy pathUserId then
    (errorResponse 400 "Missing required parameter: userId" none, table)
  else
    match validateRequiredFields body ["url", "type"] with
    | some missing =>
      (errorResponse 400 ("Missing required fields: " ++ joinComma missing) none, table)
    | none =>
      let uid := pathUserId.getD ""
      match dbGet table "userId" uid with
      | none => (errorResponse 404 "User not found" none, table)
      | some existingUser =>
        let newPortfolio := Val.vObj
          [("id", Val.vStr genPortfolioId),
           ("url", (getAttr body "url").getD Val.vNull),
           ("type", (getAttr body "type").getD Val.vNull),
           ("selected", (getAttr body "selected").getD (Val.vBool false)),
           ("uploadedAt", Val.vStr now)]
        let assigns :=
          [("portfolio", listAppend (getAttr existingUser "portfolio") [newPortfolio]),
           ("updatedAt", Val.vStr now)]
        (successResponse 201 (Val.vObj
          [("success", Val.vBool true),
           ("message", Val.vStr "Portfolio item added"),
           ("portfolioItem", newPortfolio),
           ("user", Val.vObj (applyAssignments existingUser assigns))]),
         dbUpdate table "userId" uid assigns)

/-- The addConnection handler (POST /users/userId/connections). -/
def addConnection (table : Table) (pathUserId : Option String) (body : Item)
    (genConnectionId genChatId now : String) : Response × Table :=
  if !strTruthy pathUserId then
    (errorResponse 400 "Missing required parameter: userId" none, table)
  else
    match validateRequiredFields body ["senderId", "receiverId"] with
    | some missing =>
      (errorResponse 400 ("Missing required fields: " ++ joinComma missing) none, table)
    | none =>
      let uid := pathUserId.getD ""
      match dbGet table "userId" uid with
      | none => (errorResponse 404 "User not found" none, table)
      | some existingUser =>
        let newConnection := Val.vObj
          [("connectionId", Val.vStr genConnectionId),
           ("senderId", (getAttr body "senderId").getD Val.vNull),
           ("receiverId", (getAttr body "receiverId").getD Val.vNull),
           ("chatId", Val.vStr genChatId),
           ("connectionStatus", Val.vStr "pending"),
           ("connectedAt", Val.vStr now)]
        let assigns :=
          [("connections", listAppend (getAttr existingUser "connections") [newConnection]),
           ("updatedAt", Val.vStr now)]
        (successResponse 201 (Val.vObj
          [("success", Val.vBool true),
           ("message", Val.vStr "Connection added"),
           ("connection", newConnection),
           ("user", Val.vObj (applyAssignments existingUser assigns))]),
         dbUpdate table "userId" uid assigns)

/-- The fixed allow-list of updateable casting-job fields. -/
def jobUpdateableFields : List String :=
  ["jobTitle", "jobDescription", "jobCategory", "jobType", "jobLocation",
   "tags", "view", "verified", "isExpired", "isCollab", "isWishlisted",
   "imageUrl", "expiryDate", "applicationStatus", "appliedBy", "recruiter",
   "requirements", "documents"]

/-- The updateJob handler (PUT /casting/jobId). -/
def updateJob (table : Table) (pathJobId : Option String) (body : Item)
    (now : String) : Response × Table :=
  if !strTruthy pathJobId then
    (errorResponse 400 "Missing required parameter: jobId" none, table)
  else
    let jid := pathJobId.getD ""
    match dbGet table "jobId" jid with
    | none => (errorResponse 404 "Job not found" none, table)
    | some existingJob =>
      let assigns := buildUpdateAssignments jobUpdateableFields body now
      if assigns.length = 0 then
        (errorResponse 400 "No fields to update" none, table)
      else
        (successResponse 200 (Val.vObj
          [("success", Val.vBool true),
           ("message", Val.vStr "Job updated successfully"),
           ("job", Val.vObj (applyAssignments existingJob assigns))]),
         dbUpdate table "jobId" jid assigns)

/-- The applyForJob handler (POST /casting/jobId/apply): reject a duplicate
application by a linear scan of the stored appliedBy list, otherwise append
the new application. -/
def applyForJob (table : Table) (pathJobId : Option String) (body : Item)
    (genAppId now : String) : Response × Table :=
  if !strTruthy pathJobId then
    (errorResponse 400 "Missing required parameter: jobId" none, table)
  else
    match validateRequiredFields body ["userId"] with
    | some missing =>
      (errorResponse 400 ("Missing required fields: " ++ joinComma missing) none, table)
    | none =>
      let jid := pathJobId.getD ""
      match dbGet table "jobId" jid with
      | none => (errorResponse 404 "Job not found" none, table)
      | some existingJob =>
        let userId := (getAttr body "userId").getD Val.vNull
        let alreadyApplied :=
          match getAttr existingJob "appliedBy" with
          | some (Val.vList apps) =>
            apps.any (fun app => getProp app "userId" == some userId)
          | _ => false
        if alreadyApplied then
          (errorResponse 409 "You have already applied for this job" none, table)
        else
          let newApplication := Val.vObj
            [("userId", userId),
             ("appId", Val.vStr genAppId),
             ("avatarUrl", jsOr (getAttr body "avatarUrl") (Val.vStr ""))]
          let assigns :=
            [("appliedBy", listAppend (getAttr existingJob "appliedBy") [newApplication]),
             ("updatedAt", Val.vStr now)]
          (successResponse 201 (Val.vObj
            [("success", Val.vBool true),
             ("message", Val.vStr "Application submitted successfully"),
             ("application", newApplication),
             ("job", Val.vObj (applyAssignments existingJob assigns))]),
           dbUpdate table "jobId" jid assigns)

/-- The allow-list of document types accepted by addDocument. -/
def validDocumentTypes : List String := ["pdf", "image", "video", "script"]

/-- The addDocument handler (POST /casting/jobId/documents). -/
def addDocument (table : Table) (pathJobId : Option String) (body : Item)
    (genDocId now : String) : Response × Table :=
  if !strTruthy pathJobId then
    (errorResponse 400 "Missing required parameter: jobId" none, table)
  else
    match validateRequiredFields body ["url", "type"] with
    | some missing =>
      (errorResponse 400 ("Missing required fields: " ++ joinComma missing) none, table)
    | none =>
      let typeOk :=
        match getAttr body "type" with
        | some (Val.vStr t) => validDocumentTypes.contains t
        | _ => false
      if !typeOk then
        (errorResponse 400
          ("Invalid document type. Must be one of: " ++ joinComma validDocumentTypes)
          none, table)
      else
        let jid := pathJobId.getD ""
        match dbGet table "jobId" jid with
        | none => (errorResponse 404 "Job not found" none, table)
        | some existingJob =>
          let newDocument := Val.vObj
            [("id", Val.vStr genDocId),
             ("url", (getAttr body "url").getD Val.vNull),
             ("type", (getAttr body "type").getD Val.vNull)]
          let assigns :=
            [("documents", listAppend (getAttr existingJob "documents") [newDocument]),
             ("updatedAt", Val.vStr now)]
          (successResponse 201 (Val.vObj
            [("success", Val.vBool true),
             ("message", Val.vStr "Document added"),
             ("document", newDocument),
             ("job", Val.vObj (applyAssignments existingJob assigns))]),
           dbUpdate table "jobId" jid assigns)

/-- The stored documents attribute read through the JavaScript or-else-empty
default; non-list attribute values would throw at the subsequent filter and
are not produced by the handlers. -/
def documentsOrEmpty (stored : Option Val) : List Val :=
  match stored with
  | some (Val.vList ds) => ds
  | _ => []

/-- The not-found test of removeDocument: the filtered length is compared
with the optional-chained length of the raw attribute, so an absent
attribute never compares equal. -/
def removeDocumentNotFound (stored : Option Val) (filtered : List Val) : Bool :=
  match stored with
  | some (Val.vList ds) => filtered.length == ds.length
  | _ => false

/-- The removeDocument handler (DELETE /casting/jobId/documents/docId):
rebuild the documents list without the given id and detect not-found by
comparing lengths. -/
def removeDocument (table : Table) (pathJobId pathDocId : Option String)
    (now : String) : Response × Table :=
  if !(strTruthy pathJobId && strTruthy pathDocId) then
    (errorResponse 400 "Missing required parameters: jobId, docId" none, table)
  else
    let jid := pathJobId.getD ""
    let docId := pathDocId.getD ""
    match dbGet table "jobId" jid with
    | none => (errorResponse 404 "Job not found" none, table)
    | some job =>
      let stored := getAttr job "documents"
      let documents := (documentsOrEmpty stored).filter
        (fun doc => !(getProp doc "id" == some (Val.vStr docId)))
      if removeDocumentNotFound stored documents then
        (errorResponse 404 "Document not found" none, table)
      else
        let assigns :=
          [("documents", Val.vList documents), ("updatedAt", Val.vStr now)]
        (successResponse 200 (Val.vObj
          [("success", Val.vBool true),
           ("message", Val.vStr "Document removed"),
           ("job", Val.vObj (applyAssignments job assigns))]),
         dbUpdate table "jobId" jid assigns)

/-- Point read by an arbitrary key attribute value, used by the conditional
put of the task table whose primary key is numeric. -/
def dbGetByKey (table : Table) (keyName : String) (keyVal : Val) : Option Item :=
  table.find? (fun it => getAttr it keyName == some keyVal)

/-- The bare createTask handler: no response headers and no envelope; a
failed conditional put surfaces as a 500 whose body is the stringified
client error. -/
def createTask (table : Table) (data : Item) : Response × Table :=
  let keyVal := (getAttr data "id").getD Val.vNull
  if (dbGetByKey table "id" keyVal).isSome then
    ({ statusCode := 500
       headers := []
       body := Val.vObj [("code", Val.vStr "ConditionalCheckFailedException")] },
     table)
  else
    let item : Item :=
      [("id", keyVal),
       ("title", (getAttr data "title").getD Val.vNull),
       ("description", (getAttr data "description").getD Val.vNull)]
    ({ statusCode := 200, headers := [], body := Val.vObj data }, table ++ [item])

/-- The headers of an authorizer invocation: the two spellings of the
authorization header, absent modelled as none. -/
structure AuthHeaders where
  Authorization : Option String
  authorization : Option String
deriving DecidableEq

/-- The JavaScript disjunction of the two header spellings. -/
def requestToken (h : AuthHeaders) : Option String :=
  match h.Authorization with
  | some s => if s == "" then h.authorization else some s
  | none => h.authorization

/-- One statement of an IAM policy document. -/
structure PolicyStatement where
  Action : String
  Effect : String
  Resource : String
deriving DecidableEq

/-- An IAM policy document. -/
structure PolicyDocument where
  Version : String
  Statement : List PolicyStatement
deriving DecidableEq

/-- The value returned by the authorizer. -/
structure AuthResponse where
  principalId : String
  policyDocument : PolicyDocument
  context : List (String × String)
deriving DecidableEq

/-- generatePolicy from the authorizer module. -/
def generatePolicy (principalId effect resource : String)
    (context : List (String × String)) : AuthResponse :=
  { principalId := principalId
    policyDocument :=
      { Version := "2012-10-17"
        Statement :=
          [{ Action := "execute-api:Invoke", Effect := effect, Resource := resource }] }
    context := context }

/-- The API-gateway authorizer handler. -/
def authorizer (headers : AuthHeaders) (routeArn : String) : AuthResponse :=
  let token := requestToken headers
  if !(token == some "Bearer mysecrettoken") then
    generatePolicy "user" "Deny" routeArn
      [("poweredBy", "Artisthub"), ("reason", "Invalid token")]
  else
    generatePolicy "user" "Allow" routeArn [("poweredBy", "Artisthub")]

/-- The standard base64 alphabet. -/
def base64Alphabet : List Char :=
  ['A', 'B', 'C', 'D', 'E', 'F', 'G', 'H', 'I', 'J', 'K', 'L', 'M',
   'N', 'O', 'P', 'Q', 'R', 'S', 'T', 'U', 'V', 'W', 'X', 'Y', 'Z',
   'a', 'b', 'c', 'd', 'e', 'f', 'g', 'h', 'i', 'j', 'k', 'l', 'm',
   'n', 'o', 'p', 'q', 'r', 's', 't', 'u', 'v', 'w', 'x', 'y', 'z',
   '0', '1', '2', '3', '4', '5', '6', '7', '8', '9', '+', '/']

/-- The output character for a six-bit group. -/
def base64Char (n : Nat) : Char := base64Alphabet.getD n 'A'

/-- Scan of the alphabet for a character, carrying the running index. -/
def indexInAlphabet (c : Char) : List Char → Nat → Option Nat
  | [], _ => none
  | a :: rest, i => if a == c then some i else indexInAlphabet c rest (i + 1)

/-- The six-bit value of a base64 character; none off the alphabet. -/
def base64CharVal (c : Char) : Option Nat := indexInAlphabet c base64Alphabet 0

/-- Base64 encoding of a byte string, three bytes to four characters, with
trailing-group padding. -/
def base64Encode : List Nat → List Char
  | [] => []
  | [a] => [base64Char (a / 4), base64Char (a % 4 * 16), '=', '=']
  | [a, b] =>
    [base64Char (a / 4), base64Char (a % 4 * 16 + b / 16), base64Char (b % 16 * 4), '=']
  | a :: b :: c :: rest =>
    base64Char (a / 4) :: base64Char (a % 4 * 16 + b / 16) ::
      base64Char (b % 16 * 4 + c / 64) :: base64Char (c % 64) :: base64Encode rest

/-- Base64 decoding of four-character groups, accepting canonical padding. -/
def base64Decode : List Char → Option (List Nat)
  | [] => some []
  | c1 :: c2 :: c3 :: c4 :: rest =>
    match base64CharVal c1, base64CharVal c2 with
    | some v1, some v2 =>
      if c3 == '=' then
        if c4 == '=' && rest.isEmpty && v2 % 16 == 0 then
          some [v1 * 4 + v2 / 16]
        else none
      else
        match base64CharVal c3 with
        | some v3 =>
          if c4 == '=' then
            if rest.isEmpty && v3 % 4 == 0 then
              some [v1 * 4 + v2 / 16, v2 % 16 * 16 + v3 / 4]
            else none
          else
            match base64CharVal c4 with
            | some v4 =>
              match base64Decode rest with
              | some bs =>
                some ((v1 * 4 + v2 / 16) :: (v2 % 16 * 16 + v3 / 4) ::
                  (v3 % 4 * 64 + v4) :: bs)
              | none => none
            | none => none
        | none => none
    | _, _ => none
  | _ => none

theorem base64CharVal_base64Char : ∀ n < 64, base64CharVal (base64Char n) = some n := by
  decide

theorem base64Char_ne_pad : ∀ n < 64, (base64Char n == '=') = false := by
  decide

theorem base64Decode_base64Encode :
    ∀ bs : List Nat, (∀ b ∈ bs, b < 256) →
      base64Decode (base64Encode bs) = some bs := by
  intro bs
  induction bs using base64Encode.induct with
  | case1 => intro _; rfl
  | case2 a =>
    intro hb
    have ha : a < 256 := hb a (by simp)
    simp only [base64Encode, base64Decode]
    rw [base64CharVal_base64Char (a / 4) (by omega),
      base64CharVal_base64Char (a % 4 * 16) (by omega)]
    have hm : a % 4 * 16 % 16 = 0 := by omega
    simp only [beq_self_eq_true, List.isEmpty_nil, hm, Nat.zero_mod,
      Bool.and_true, Bool.and_self, if_true, Option.some.injEq, List.cons.injEq,
      and_true, ite_true]
    omega
  | case3 a b =>
    intro hb
    have ha : a < 256 := hb a (by simp)
    have hbb : b < 256 := hb b (by simp)
    simp only [base64Encode, base64Decode]
    rw [base64CharVal_base64Char (a / 4) (by omega),
      base64CharVal_base64Char (a % 4 * 16 + b / 16) (by omega)]
    rw [base64Char_ne_pad (b % 16 * 4) (by omega)]
    rw [base64CharVal_base64Char (b % 16 * 4) (by omega)]
    have hm : b % 16 * 4 % 4 = 0 := by omega
    simp only [beq_self_eq_true, List.isEmpty_nil, hm,
      Bool.and_self, Bool.and_true, if_true, Option.some.injEq, List.cons.injEq,
      and_true, ite_true, Bool.false_eq_true, if_false]
    constructor
    · omega
    · omega
  | case4 a b c rest ih =>
    intro hb
    have ha : a < 256 := hb a (by simp)
    have hbb : b < 256 := hb b (by simp)
    have hc : c < 256 := hb c (by simp)
    have hrest : ∀ x ∈ rest, x < 256 := fun x hx => hb x (by simp [hx])
    simp only [base64Encode, base64Decode]
    rw [base64CharVal_base64Char (a / 4) (by omega),
      base64CharVal_base64Char (a % 4 * 16 + b / 16) (by omega)]
    rw [base64Char_ne_pad (b % 16 * 4 + c / 64) (by omega)]
    rw [base64CharVal_base64Char (b % 16 * 4 + c / 64) (by omega)]
    rw [base64Char_ne_pad (c % 64) (by omega)]
    rw [base64CharVal_base64Char (c % 64) (by omega)]
    rw [ih hrest]
    simp only [Bool.false_eq_true, if_false, Option.some.injEq, List.cons.injEq,
      and_true, true_and]
    refine ⟨by omega, by omega, by omega⟩

/-- Whether a code point is a Unicode scalar value. -/
def isScalar (n : Nat) : Bool :=
  n < 0xd800 || (0xdfff < n && n < 0x110000)

/-- Whether a byte is a UTF-8 continuation byte. -/
def isCont (b : Nat) : Bool := 0x80 ≤ b && b < 0xc0

/-- UTF-8 encoding of one scalar value. -/
def utf8EncodeChar (c : Char) : List Nat :=
  if c.toNat < 0x80 then [c.toNat]
  else if c.toNat < 0x800 then [0xc0 + c.toNat / 64, 0x80 + c.toNat % 64]
  else if c.toNat < 0x10000 then
    [0xe0 + c.toNat / 4096, 0x80 + c.toNat / 64 % 64, 0x80 + c.toNat % 64]
  else
    [0xf0 + c.toNat / 262144, 0x80 + c.toNat / 4096 % 64, 0x80 + c.toNat / 64 % 64,
     0x80 + c.toNat % 64]

/-- UTF-8 encoding of a character string. -/
def utf8Encode (s : List Char) : List Nat :=
  s.foldr (fun c acc => utf8EncodeChar c ++ acc) []

/-- Decode one two-byte UTF-8 sequence after its lead byte. -/
def utf8Dec2 (b0 : Nat) : List Nat → Option (Char × List Nat)
  | b1 :: rest1 =>
    if isCont b1 then
      if 0x80 ≤ (b0 - 0xc0) * 64 + (b1 - 0x80) then
        some (Char.ofNat ((b0 - 0xc0) * 64 + (b1 - 0x80)), rest1)
      else none
    else none
  | [] => none

/-- Decode one three-byte UTF-8 sequence after its lead byte. -/
def utf8Dec3 (b0 : Nat) : List Nat → Option (Char × List Nat)
  | b1 :: b2 :: rest2 =>
    if isCont b1 && isCont b2 then
      if 0x800 ≤ (b0 - 0xe0) * 4096 + (b1 - 0x80) * 64 + (b2 - 0x80) &&
          isScalar ((b0 - 0xe0) * 4096 + (b1 - 0x80) * 64 + (b2 - 0x80)) then
        some (Char.ofNat ((b0 - 0xe0) * 4096 + (b1 - 0x80) * 64 + (b2 - 0x80)), rest2)
      else none
    else none
  | _ => none

/-- Decode one four-byte UTF-8 sequence after its lead byte. -/
def utf8Dec4 (b0 : Nat) : List Nat → Option (Char × List Nat)
  | b1 :: b2 :: b3 :: rest3 =>
    if isCont b1 && isCont b2 && isCont b3 then
      if 0x10000 ≤ (b0 - 0xf0) * 262144 + (b1 - 0x80) * 4096 +
            (b2 - 0x80) * 64 + (b3 - 0x80) &&
          (b0 - 0xf0) * 262144 + (b1 - 0x80) * 4096 +
            (b2 - 0x80) * 64 + (b3 - 0x80) < 0x110000 then
        some (Char.ofNat ((b0 - 0xf0) * 262144 + (b1 - 0x80) * 4096 +
          (b2 - 0x80) * 64 + (b3 - 0x80)), rest3)
      else none
    else none
  | _ => none

/-- Decode one UTF-8 scalar value off the front of a byte string, returning
it with the unconsumed tail; malformed, overlong, surrogate and
out-of-range sequences are rejected. -/
def utf8DecodeChar : List Nat → Option (Char × List Nat)
  | [] => none
  | b0 :: rest0 =>
    if b0 < 0x80 then some (Char.ofNat b0, rest0)
    else if b0 < 0xc0 then none
    else if b0 < 0xe0 then utf8Dec2 b0 rest0
    else if b0 < 0xf0 then utf8Dec3 b0 rest0
    else if b0 < 0xf8 then utf8Dec4 b0 rest0
    else none

theorem utf8Dec2_consumes (b0 : Nat) (bs : List Nat) (c : Char) (rest : List Nat)
    (h : utf8Dec2 b0 bs = some (c, rest)) : rest.length < bs.length := by
  match bs with
  | [] => simp [utf8Dec2] at h
  | b1 :: rest1 =>
    simp only [utf8Dec2] at h
    split at h
    · split at h
      · simp only [Option.some.injEq, Prod.mk.injEq] at h
        obtain ⟨-, h2⟩ := h
        subst h2
        simp
      · simp at h
    · simp at h

theorem utf8Dec3_consumes (b0 : Nat) (bs : List Nat) (c : Char) (rest : List Nat)
    (h : utf8Dec3 b0 bs = some (c, rest)) : rest.length < bs.length := by
  match bs with
  | [] => simp [utf8Dec3] at h
  | [b1] => simp [utf8Dec3] at h
  | b1 :: b2 :: rest2 =>
    simp only [utf8Dec3] at h
    split at h
    · split at h
      · simp only [Option.some.injEq, Prod.mk.injEq] at h
        obtain ⟨-, h2⟩ := h
        subst h2
        simp
        omega
      · simp at h
    · simp at h

theorem utf8Dec4_consumes (b0 : Nat) (bs : List Nat) (c : Char) (rest : List Nat)
    (h : utf8Dec4 b0 bs = some (c, rest)) : rest.length < bs.length := by
  match bs with
  | [] => simp [utf8Dec4] at h
  | [b1] => simp [utf8Dec4] at h
  | [b1, b2] => simp [utf8Dec4] at h
  | b1 :: b2 :: b3 :: rest3 =>
    simp only [utf8Dec4] at h
    split at h
    · split at h
      · simp only [Option.some.injEq, Prod.mk.injEq] at h
        obtain ⟨-, h2⟩ := h
        subst h2
        simp
        omega
      · simp at h
    · simp at h

theorem utf8DecodeChar_consumes (bs : List Nat) (c : Char) (rest : List Nat)
    (h : utf8DecodeChar bs = some (c, rest)) : rest.length < bs.length := by
  match bs with
  | [] => simp [utf8DecodeChar] at h
  | b0 :: rest0 =>
    simp only [utf8DecodeChar] at h
    split at h
    · simp only [Option.some.injEq, Prod.mk.injEq] at h
      obtain ⟨-, h2⟩ := h
      subst h2
      simp
    · split at h
      · exact absurd h (by simp)
      · split at h
        · have := utf8Dec2_consumes b0 rest0 c rest h
          simp only [List.length_cons]
          omega
        · split at h
          · have := utf8Dec3_consumes b0 rest0 c rest h
            simp only [List.length_cons]
            omega
          · split at h
            · have := utf8Dec4_consumes b0 rest0 c rest h
              simp only [List.length_cons]
              omega
            · exact absurd h (by simp)

/-- UTF-8 decoding of a byte string into its character string; none on any
malformed input. -/
def utf8Decode (bs : List Nat) : Option (List Char) :=
  if bs.isEmpty then some []
  else
    match h : utf8DecodeChar bs with
    | some (c, rest) =>
      match utf8Decode rest with
      | some cs => some (c :: cs)
      | none => none
    | none => none
termination_by bs.length
decreasing_by exact utf8DecodeChar_consumes bs _ _ h

theorem utf8EncodeChar_lt (c : Char) : ∀ b ∈ utf8EncodeChar c, b < 256 := by
  intro b hb
  have hv : c.toNat < 0xd800 ∨ (0xdfff < c.toNat ∧ c.toNat < 0x110000) := c.valid
  simp only [utf8EncodeChar] at hb
  split at hb <;> [skip; split at hb] <;> [skip; skip; split at hb] <;>
    simp only [List.mem_cons, List.not_mem_nil, or_false] at hb <;>
    omega

theorem utf8DecodeChar_utf8EncodeChar (c : Char) (rest : List Nat) :
    utf8DecodeChar (utf8EncodeChar c ++ rest) = some (c, rest) := by
  have hv : c.toNat < 0xd800 ∨ (0xdfff < c.toNat ∧ c.toNat < 0x110000) := c.valid
  have hofn : Char.ofNat c.toNat = c := Char.ofNat_toNat c
  by_cases h1 : c.toNat < 0x80
  · simp only [utf8EncodeChar, if_pos h1, List.cons_append, List.nil_append]
    simp only [utf8DecodeChar, if_pos h1, hofn]
  · by_cases h2 : c.toNat < 0x800
    · simp only [utf8EncodeChar, if_neg h1, if_pos h2, List.cons_append, List.nil_append]
      simp only [utf8DecodeChar]
      rw [if_neg (by omega), if_neg (by omega), if_pos (by omega)]
      simp only [utf8Dec2]
      have hcont : isCont (0x80 + c.toNat % 64) = true := by
        simp only [isCont, Bool.and_eq_true, decide_eq_true_eq]
        omega
      rw [if_pos hcont, if_pos (by omega)]
      have hn : (0xc0 + c.toNat / 64 - 0xc0) * 64 + (0x80 + c.toNat % 64 - 0x80) =
          c.toNat := by omega
      rw [hn, hofn]
    · by_cases h3 : c.toNat < 0x10000
      · simp only [utf8EncodeChar, if_neg h1, if_neg h2, if_pos h3,
          List.cons_append, List.nil_append]
        simp only [utf8DecodeChar]
        rw [if_neg (by omega), if_neg (by omega), if_neg (by omega), if_pos (by omega)]
        simp only [utf8Dec3]
        have hcont : (isCont (0x80 + c.toNat / 64 % 64) &&
            isCont (0x80 + c.toNat % 64)) = true := by
          simp only [isCont, Bool.and_eq_true, decide_eq_true_eq]
          omega
        rw [if_pos hcont]
        have hn : (0xe0 + c.toNat / 4096 - 0xe0) * 4096 +
            (0x80 + c.toNat / 64 % 64 - 0x80) * 64 + (0x80 + c.toNat % 64 - 0x80) =
            c.toNat := by omega
        rw [hn]
        have hok : (0x800 ≤ c.toNat && isScalar c.toNat) = true := by
          simp only [isScalar, Bool.and_eq_true, Bool.or_eq_true, decide_eq_true_eq]
          omega
        rw [if_pos hok, hofn]
      · simp only [utf8EncodeChar, if_neg h1, if_neg h2, if_neg h3,
          List.cons_append, List.nil_append]
        simp only [utf8DecodeChar]
        rw [if_neg (by omega), if_neg (by omega), if_neg (by omega),
          if_neg (by omega), if_pos (by omega)]
        simp only [utf8Dec4]
        have hcont : (isCont (0x80 + c.toNat / 4096 % 64) &&
            isCont (0x80 + c.toNat / 64 % 64) && isCont (0x80 + c.toNat % 64)) = true := by
          simp only [isCont, Bool.and_eq_true, decide_eq_true_eq]
          omega
        rw [if_pos hcont]
        have hn : (0xf0 + c.toNat / 262144 - 0xf0) * 262144 +
            (0x80 + c.toNat / 4096 % 64 - 0x80) * 4096 +
            (0x80 + c.toNat / 64 % 64 - 0x80) * 64 + (0x80 + c.toNat % 64 - 0x80) =
            c.toNat := by omega
        rw [hn]
        have hok : (0x10000 ≤ c.toNat && c.toNat < 0x110000) = true := by
          simp only [Bool.and_eq_true, decide_eq_true_eq]
          omega
        rw [if_pos hok, hofn]

theorem utf8Decode_nil : utf8Decode [] = some [] := by
  rw [utf8Decode]
  rfl

theorem utf8Decode_step (bs rest : List Nat) (c : Char) (cs : List Char)
    (hchar : utf8DecodeChar bs = some (c, rest))
    (hrec : utf8Decode rest = some cs) :
    utf8Decode bs = some (c :: cs) := by
  have hne : bs.isEmpty = false := by
    cases bs with
    | nil => simp [utf8DecodeChar] at hchar
    | cons b rest0 => simp
  rw [utf8Decode]
  rw [hne]
  simp only [Bool.false_eq_true, if_false]
  split
  · rename_i c' rest' heq
    rw [hchar] at heq
    simp only [Option.some.injEq, Prod.mk.injEq] at heq
    obtain ⟨hc, hr⟩ := heq
    subst hc
    subst hr
    rw [hrec]
  · rename_i heq
    rw [hchar] at heq
    simp at heq

theorem utf8Decode_utf8Encode (s : List Char) :
    utf8Decode (utf8Encode s) = some s := by
  induction s with
  | nil => exact utf8Decode_nil
  | cons c cs ih =>
    have hchar := utf8DecodeChar_utf8EncodeChar c (utf8Encode cs)
    exact utf8Decode_step _ _ c cs hchar ih

theorem utf8Encode_lt (s : List Char) : ∀ b ∈ utf8Encode s, b < 256 := by
  induction s with
  | nil => intro b hb; simp [utf8Encode] at hb
  | cons c cs ih =>
    intro b hb
    simp only [utf8Encode, List.foldr_cons] at hb
    rw [List.mem_append] at hb
    rcases hb with hb | hb
    · exact utf8EncodeChar_lt c b hb
    · exact ih b hb

/-- The lowercase hex digit of a value below 16. -/
def hexDigit (n : Nat) : Char :=
  if n < 10 then Char.ofNat (48 + n) else Char.ofNat (87 + n)

/-- The value of a hex digit accepted by a JSON parser. -/
def hexVal (c : Char) : Option Nat :=
  if '0' ≤ c ∧ c ≤ '9' then some (c.toNat - 48)
  else if 'a' ≤ c ∧ c ≤ 'f' then some (c.toNat - 87)
  else if 'A' ≤ c ∧ c ≤ 'F' then some (c.toNat - 55)
  else none

/-- JSON.stringify escaping of one string character. -/
def escapeChar (c : Char) : List Char :=
  if c = '"' then ['\\', '"']
  else if c = '\\' then ['\\', '\\']
  else if c.toNat = 8 then ['\\', 'b']
  else if c.toNat = 9 then ['\\', 't']
  else if c.toNat = 10 then ['\\', 'n']
  else if c.toNat = 12 then ['\\', 'f']
  else if c.toNat = 13 then ['\\', 'r']
  else if c.toNat < 32 then
    ['\\', 'u', '0', '0', hexDigit (c.toNat / 16), hexDigit (c.toNat % 16)]
  else [c]

/-- JSON.stringify escaping of a string body. -/
def escapeString (s : List Char) : List Char :=
  s.foldr (fun c acc => escapeChar c ++ acc) []

/-- The single-character escapes accepted after a backslash. -/
def unescapeChar (e : Char) : Option Char :=
  if e = '"' then some '"'
  else if e = '\\' then some '\\'
  else if e = '/' then some '/'
  else if e = 'b' then some (Char.ofNat 8)
  else if e = 'f' then some (Char.ofNat 12)
  else if e = 'n' then some (Char.ofNat 10)
  else if e = 'r' then some (Char.ofNat 13)
  else if e = 't' then some (Char.ofNat 9)
  else none

/-- Read one escape sequence after the opening backslash, returning the
decoded character and the unconsumed tail. -/
def readEscapeSeq : List Char → Option (Option Char × List Char)
  | [] => none
  | e :: rest1 =>
    if e = 'u' then
      match rest1 with
      | h1 :: h2 :: h3 :: h4 :: rest2 =>
        match hexVal h1, hexVal h2, hexVal h3, hexVal h4 with
        | some v1, some v2, some v3, some v4 =>
          if isScalar (((v1 * 16 + v2) * 16 + v3) * 16 + v4) then
            some (some (Char.ofNat (((v1 * 16 + v2) * 16 + v3) * 16 + v4)), rest2)
          else none
        | _, _, _, _ => none
      | _ => none
    else
      match unescapeChar e with
      | some d => some (some d, rest1)
      | none => none

/-- Read one string element: the closing quote (none), an escape sequence,
or a plain character; raw control characters are rejected. -/
def readOneStringChar : List Char → Option (Option Char × List Char)
  | [] => none
  | c :: rest =>
    if c = '"' then some (none, rest)
    else if c = '\\' then readEscapeSeq rest
    else if c.toNat < 32 then none
    else some (some c, rest)

theorem readEscapeSeq_consumes (l : List Char) (oc : Option Char) (rest : List Char)
    (h : readEscapeSeq l = some (oc, rest)) : rest.length < l.length := by
  match l with
  | [] => simp [readEscapeSeq] at h
  | e :: rest1 =>
    simp only [readEscapeSeq] at h
    split at h
    · split at h
      · split at h
        · split at h
          · simp only [Option.some.injEq, Prod.mk.injEq] at h
            obtain ⟨-, h2⟩ := h
            subst h2
            simp
            omega
          · simp at h
        · simp at h
      · simp at h
    · split at h
      · simp only [Option.some.injEq, Prod.mk.injEq] at h
        obtain ⟨-, h2⟩ := h
        subst h2
        simp
      · simp at h

theorem readOneStringChar_consumes (l : List Char) (oc : Option Char)
    (rest : List Char) (h : readOneStringChar l = some (oc, rest)) :
    rest.length < l.length := by
  match l with
  | [] => simp [readOneStringChar] at h
  | c :: rest0 =>
    simp only [readOneStringChar] at h
    split at h
    · simp only [Option.some.injEq, Prod.mk.injEq] at h
      obtain ⟨-, h2⟩ := h
      subst h2
      simp
    · split at h
      · have := readEscapeSeq_consumes rest0 oc rest h
        simp only [List.length_cons]
        omega
      · split at h
        · simp at h
        · simp only [Option.some.injEq, Prod.mk.injEq] at h
          obtain ⟨-, h2⟩ := h
          subst h2
          simp

/-- Read a JSON string body up to its closing quote, returning the unescaped
contents and the unconsumed tail. -/
def readJsonString (l : List Char) : Option (List Char × List Char) :=
  match h : readOneStringChar l with
  | some (some c, rest) =>
    match readJsonString rest with
    | some (s, r) => some (c :: s, r)
    | none => none
  | some (none, rest) => some ([], rest)
  | none => none
termination_by l.length
decreasing_by exact readOneStringChar_consumes l _ _ h

theorem hexVal_hexDigit : ∀ n < 16, hexVal (hexDigit n) = some n := by
  decide

theorem readOneStringChar_escapeChar (c : Char) (rest : List Char) :
    readOneStringChar (escapeChar c ++ rest) = some (some c, rest) := by
  have hofn : Char.ofNat c.toNat = c := Char.ofNat_toNat c
  by_cases hq : c = '"'
  · subst hq
    simp [escapeChar, readOneStringChar, readEscapeSeq, unescapeChar]
  · by_cases hb : c = '\\'
    · subst hb
      simp [escapeChar, readOneStringChar, readEscapeSeq, unescapeChar]
    · by_cases h8 : c.toNat = 8
      · simp only [escapeChar, if_neg hq, if_neg hb, if_pos h8, List.cons_append,
          List.nil_append]
        simp [readOneStringChar, readEscapeSeq, unescapeChar]
        rw [← h8]
        exact hofn
      · by_cases h9 : c.toNat = 9
        · simp only [escapeChar, if_neg hq, if_neg hb, if_neg h8, if_pos h9,
            List.cons_append, List.nil_append]
          simp [readOneStringChar, readEscapeSeq, unescapeChar]
          rw [← h9]
          exact hofn
        · by_cases h10 : c.toNat = 10
          · simp only [escapeChar, if_neg hq, if_neg hb, if_neg h8, if_neg h9,
              if_pos h10, List.cons_append, List.nil_append]
            simp [readOneStringChar, readEscapeSeq, unescapeChar]
            rw [← h10]
            exact hofn
          · by_cases h12 : c.toNat = 12
            · simp only [escapeChar, if_neg hq, if_neg hb, if_neg h8, if_neg h9,
                if_neg h10, if_pos h12, List.cons_append, List.nil_append]
              simp [readOneStringChar, readEscapeSeq, unescapeChar]
              rw [← h12]
              exact hofn
            · by_cases h13 : c.toNat = 13
              · simp only [escapeChar, if_neg hq, if_neg hb, if_neg h8, if_neg h9,
                  if_neg h10, if_neg h12, if_pos h13, List.cons_append, List.nil_append]
                simp [readOneStringChar, readEscapeSeq, unescapeChar]
                rw [← h13]
                exact hofn
              · by_cases h32 : c.toNat < 32
                · simp only [escapeChar, if_neg hq, if_neg hb, if_neg h8, if_neg h9,
                    if_neg h10, if_neg h12, if_neg h13, if_pos h32, List.cons_append,
                    List.nil_append]
                  simp only [readOneStringChar, readEscapeSeq, reduceIte]
                  have hv0 : hexVal '0' = some 0 := by decide
                  have hhi : hexVal (hexDigit (c.toNat / 16)) = some (c.toNat / 16) :=
                    hexVal_hexDigit _ (by omega)
                  have hlo : hexVal (hexDigit (c.toNat % 16)) = some (c.toNat % 16) :=
                    hexVal_hexDigit _ (by omega)
                  rw [hv0, hhi, hlo]
                  have hn : ((0 * 16 + 0) * 16 + c.toNat / 16) * 16 + c.toNat % 16 =
                      c.toNat := by omega
                  have hs : isScalar c.toNat = true := by
                    simp only [isScalar, Bool.or_eq_true, Bool.and_eq_true,
                      decide_eq_true_eq]
                    omega
                  have hn2 : c.toNat / 16 * 16 + c.toNat % 16 = c.toNat := by omega
                  simp [hn, hn2, hs, hofn]
                · simp only [escapeChar, if_neg hq, if_neg hb, if_neg h8, if_neg h9,
                    if_neg h10, if_neg h12, if_neg h13, if_neg h32, List.cons_append,
                    List.nil_append]
                  simp only [readOneStringChar]
                  rw [if_neg hq, if_neg hb, if_neg (by omega)]

theorem readJsonString_step (l rest r : List Char) (c : Char) (s : List Char)
    (hone : readOneStringChar l = some (some c, rest))
    (hrec : readJsonString rest = some (s, r)) :
    readJsonString l = some (c :: s, r) := by
  rw [readJsonString]
  split
  · rename_i c' rest' heq
    rw [hone] at heq
    simp only [Option.some.injEq, Prod.mk.injEq, Option.some.injEq] at heq
    obtain ⟨hc, hr⟩ := heq
    subst hc
    subst hr
    rw [hrec]
  · rename_i rest' heq
    rw [hone] at heq
    simp at heq
  · rename_i heq
    rw [hone] at heq
    simp at heq

theorem readJsonString_term (l rest : List Char)
    (hone : readOneStringChar l = some (none, rest)) :
    readJsonString l = some ([], rest) := by
  rw [readJsonString]
  split
  · rename_i c' rest' heq
    rw [hone] at heq
    simp at heq
  · rename_i rest' heq
    rw [hone] at heq
    simp only [Option.some.injEq, Prod.mk.injEq] at heq
    rw [heq.2]
  · rename_i heq
    rw [hone] at heq
    simp at heq

theorem readJsonString_escapeString (s : List Char) (rest : List Char) :
    readJsonString (escapeString s ++ '"' :: rest) = some (s, rest) := by
  induction s with
  | nil =>
    have hone : readOneStringChar ('"' :: rest) = some (none, rest) := by
      simp [readOneStringChar]
    simpa [escapeString] using readJsonString_term _ _ hone
  | cons c cs ih =>
    have hesc : escapeString (c :: cs) ++ '"' :: rest =
        escapeChar c ++ (escapeString cs ++ '"' :: rest) := by
      simp [escapeString, List.append_assoc]
    rw [hesc]
    exact readJsonString_step _ _ _ c cs
      (readOneStringChar_escapeChar c (escapeString cs ++ '"' :: rest)) ih

/-- A continuation key produced by a scan of the users or casting table: the
table's single string key attribute (userId or jobId) and its value. -/
structure LastKey where
  field : String
  value : String
deriving DecidableEq

/-- JSON.stringify of the one-attribute continuation key object. -/
def serializeLastKey (k : LastKey) : List Char :=
  '\x7b' :: '"' :: (escapeString k.field.data ++
    '"' :: ':' :: '"' :: (escapeString k.value.data ++ ['"', '\x7d']))

/-- JSON.parse of a one-attribute continuation key object. -/
def parseLastKey (l : List Char) : Option LastKey :=
  match l with
  | c0 :: c1 :: rest =>
    if c0 = '\x7b' ∧ c1 = '"' then
      match readJsonString rest with
      | some (f, rest2) =>
        match rest2 with
        | c2 :: c3 :: rest3 =>
          if c2 = ':' ∧ c3 = '"' then
            match readJsonString rest3 with
            | some (v, rest4) =>
              if rest4 = ['\x7d'] then some ⟨String.mk f, String.mk v⟩ else none
            | none => none
          else none
        | _ => none
      | none => none
    else none
  | _ => none

theorem parseLastKey_serializeLastKey (k : LastKey) :
    parseLastKey (serializeLastKey k) = some k := by
  have h1 := readJsonString_escapeString k.field.data (':' :: '"' ::
    (escapeString k.value.data ++ ['"', '\x7d']))
  have h2 := readJsonString_escapeString k.value.data ['\x7d']
  simp only [serializeLastKey, parseLastKey, h1, h2]
  rfl

/-- The opaque pagination token built by listUsers and listJobs from the
scan's LastEvaluatedKey: base64 of the UTF-8 bytes of its JSON
serialization. -/
def encodeLastKeyToken (k : LastKey) : List Char :=
  base64Encode (utf8Encode (serializeLastKey k))

/-- The ExclusiveStartKey recovered by listUsers and listJobs from a
received lastKey token: base64 decode, UTF-8 decode, then JSON parse. -/
def decodeLastKeyToken (t : List Char) : Option LastKey :=
  match base64Decode t with
  | some bs =>
    match utf8Decode bs with
    | some cs => parseLastKey cs
    | none => none
  | none => none

/-- The listUsers handler's response assembly (GET /users): scan items, the
count, and the encoded continuation token or null. -/
def listUsersResponse (items : List Item) (lastEvaluatedKey : Option LastKey) :
    Response :=
  successResponse 200 (Val.vObj
    [("success", Val.vBool true),
     ("items", Val.vList (items.map Val.vObj)),
     ("count", Val.vNum items.length),
     ("lastKey",
      match lastEvaluatedKey with
      | some k => Val.vStr (String.mk (encodeLastKeyToken k))
      | none => Val.vNull)])

/-- The listJobs handler's response assembly (GET /casting): scan items, the
count, and the encoded continuation token or null. -/
def listJobsResponse (items : List Item) (lastEvaluatedKey : Option LastKey) :
    Response :=
  successResponse 200 (Val.vObj
    [("success", Val.vBool true),
     ("items", Val.vList (items.map Val.vObj)),
     ("count", Val.vNum items.length),
     ("lastKey",
      match lastEvaluatedKey with
      | some k => Val.vStr (String.mk (encodeLastKeyToken k))
      | none => Val.vNull)])

theorem getSetSelf (it : Item) (k : String) (v : Val) :
    getAttr (setAttr it k v) k = some v := by
  induction it with
  | nil => simp [setAttr, getAttr]
  | cons kv rest ih =>
    by_cases h : kv.1 = k
    · simp [setAttr, getAttr, h]
    · have hb : (kv.1 == k) = false := by simpa using h
      simp [setAttr, getAttr, hb, ih]

theorem getSetNe (it : Item) (k' k : String) (v : Val) (h : k' ≠ k) :
    getAttr (setAttr it k' v) k = getAttr it k := by
  induction it with
  | nil => simp [setAttr, getAttr, h]
  | cons kv rest ih =>
    by_cases h1 : kv.1 = k'
    · have hb : (kv.1 == k) = false := by
        simp only [beq_eq_false_iff_ne, ne_eq]
        rw [h1]
        exact h
      simp [setAttr, getAttr, h1, hb, h]
    · have hb1 : (kv.1 == k') = false := by simpa using h1
      by_cases h2 : kv.1 = k
      · simp [setAttr, getAttr, hb1, h2, Ne.symm h]
      · have hb2 : (kv.1 == k) = false := by simpa using h2
        simp [setAttr, getAttr, hb1, hb2, ih]

theorem applyAssignments_append (it : Item) (xs ys : List (String × Val)) :
    applyAssignments it (xs ++ ys) = applyAssignments (applyAssignments it xs) ys := by
  simp [applyAssignments, List.foldl_append]

theorem getApplyNotMem (assigns : List (String × Val)) (it : Item) (k : String)
    (h : ∀ p ∈ assigns, p.1 ≠ k) :
    getAttr (applyAssignments it assigns) k = getAttr it k := by
  induction assigns generalizing it with
  | nil => rfl
  | cons p rest ih =>
    simp only [applyAssignments, List.foldl_cons]
    rw [show List.foldl (fun acc kv => setAttr acc kv.1 kv.2) (setAttr it p.1 p.2) rest =
      applyAssignments (setAttr it p.1 p.2) rest from rfl]
    rw [ih _ (fun q hq => h q (List.mem_cons_of_mem p hq))]
    exact getSetNe it p.1 k p.2 (h p (List.mem_cons_self p rest))

theorem getApplyLast (it : Item) (pre post : List (String × Val)) (k : String) (v : Val)
    (h : ∀ p ∈ post, p.1 ≠ k) :
    getAttr (applyAssignments it (pre ++ (k, v) :: post)) k = some v := by
  rw [applyAssignments_append]
  rw [show applyAssignments (applyAssignments it pre) ((k, v) :: post) =
    applyAssignments (setAttr (applyAssignments it pre) k v) post from rfl]
  rw [getApplyNotMem post _ k h]
  exact getSetSelf _ k v

theorem buildUpdate_keys (fields : List String) (body : Item) (now : String) :
    ∀ p ∈ buildUpdateAssignments fields body now, p.1 ∈ fields ∨ p.1 = "updatedAt" := by
  intro p hp
  simp only [buildUpdateAssignments, List.mem_append, List.mem_singleton] at hp
  rcases hp with hp | hp
  · rcases List.mem_filterMap.mp hp with ⟨f, hf, hsome⟩
    rcases Option.map_eq_some'.mp hsome with ⟨v, -, hv⟩
    have hp1 : p.1 = f := by rw [← hv]
    left
    rw [hp1]
    exact hf
  · right
    rw [hp]

theorem buildUpdate_updatedAt (fields : List String) (body : Item) (now : String)
    (it : Item) :
    getAttr (applyAssignments it (buildUpdateAssignments fields body now)) "updatedAt" =
      some (Val.vStr now) := by
  unfold buildUpdateAssignments
  refine getApplyLast it _ [] "updatedAt" (Val.vStr now) ?_
  simp

theorem buildUpdate_field (fields : List String) (body : Item) (now : String)
    (it : Item) (fs1 fs2 : List String) (f : String) (v : Val)
    (hsplit : fields = fs1 ++ f :: fs2) (hnotin : f ∉ fs2)
    (hbody : getAttr body f = some v) (hup : f ≠ "updatedAt") :
    getAttr (applyAssignments it (buildUpdateAssignments fields body now)) f = some v := by
  unfold buildUpdateAssignments
  subst hsplit
  rw [List.filterMap_append, List.filterMap_cons, hbody]
  simp only [Option.map_some']
  rw [List.append_assoc, List.cons_append]
  refine getApplyLast it _ _ f v ?_
  intro p hp
  simp only [List.mem_append, List.mem_singleton] at hp
  rcases hp with hp | hp
  · rcases List.mem_filterMap.mp hp with ⟨g, hg, hsome⟩
    rcases Option.map_eq_some'.mp hsome with ⟨w, -, hw⟩
    have hp1 : p.1 = g := by rw [← hw]
    rw [hp1]
    intro hgf
    rw [hgf] at hg
    exact hnotin hg
  · rw [hp]
    intro hcontra
    exact hup hcontra.symm

theorem dbGet_dbUpdate (table : Table) (kn kv : String)
    (assigns : List (String × Val)) (it : Item)
    (hget : dbGet table kn kv = some it)
    (hpres : ∀ p ∈ assigns, p.1 ≠ kn) :
    dbGet (dbUpdate table kn kv assigns) kn kv = some (applyAssignments it assigns) := by
  induction table with
  | nil => simp [dbGet] at hget
  | cons it0 rest ih =>
    by_cases h : (getAttr it0 kn == some (Val.vStr kv)) = true
    · have hit : it = it0 := by
        simp only [dbGet, h, if_true, Option.some.injEq] at hget
        exact hget.symm
      subst hit
      simp only [dbUpdate, h, if_true]
      have hkey : getAttr (applyAssignments it assigns) kn = getAttr it kn :=
        getApplyNotMem assigns it kn hpres
      simp [dbGet, hkey, h]
    · have hb : (getAttr it0 kn == some (Val.vStr kv)) = false := by
        simpa using h
      have hget2 : dbGet rest kn kv = some it := by
        simpa [dbGet, hb] using hget
      simp [dbUpdate, dbGet, hb, ih hget2]

theorem getAttrNone (kvs : List (String × Val)) (k : String)
    (h : k ∉ kvs.map Prod.fst) : getAttr kvs k = none := by
  induction kvs with
  | nil => rfl
  | cons kv rest ih =>
    simp only [List.map_cons, List.mem_cons] at h
    push_neg at h
    have hb : (kv.1 == k) = false := by
      simpa using fun he => h.1 he.symm
    simp [getAttr, hb, ih h.2]

/-- C2: a second application to a stored casting job by a user id already in
its appliedBy list is rejected with a 409 conflict by the linear scan of the
applications, and the stored table (so the appliedBy list) is unchanged. -/
theorem applyForJob_duplicate_conflict
    (table : Table) (jid uid gid now : String) (body : Item) (job : Item)
    (apps : List Val)
    (hjid : jid ≠ "")
    (huid : uid ≠ "")
    (hbody : getAttr body "userId" = some (Val.vStr uid))
    (hget : dbGet table "jobId" jid = some job)
    (happs : getAttr job "appliedBy" = some (Val.vList apps))
    (hdup : ∃ app ∈ apps, getProp app "userId" = some (Val.vStr uid)) :
    applyForJob table (some jid) body gid now =
      (errorResponse 409 "You have already applied for this job" none, table) := by
  have hst : strTruthy (some jid) = true := by simp [strTruthy, hjid]
  have hval : validateRequiredFields body ["userId"] = none := by
    simp [validateRequiredFields, truthyOpt, hbody, truthy, huid]
  have hany : apps.any (fun app => getProp app "userId" ==
      some ((getAttr body "userId").getD Val.vNull)) = true := by
    rcases hdup with ⟨app, hmem, hid⟩
    rw [hbody]
    exact List.any_eq_true.mpr ⟨app, hmem, by simp [hid]⟩
  simp only [applyForJob, hst, Bool.not_true, Bool.false_eq_true, if_false,
    hval, Option.getD_some, hget, happs, hany, if_true]

theorem applyForJob_duplicate_conflict_witness :
    applyForJob [[("jobId", Val.vStr "j1"),
        ("appliedBy", Val.vList [Val.vObj [("userId", Val.vStr "u1"),
          ("appId", Val.vStr "a1"), ("avatarUrl", Val.vStr "")]])]]
      (some "j1") [("userId", Val.vStr "u1")] "a2" "t2" =
      (errorResponse 409 "You have already applied for this job" none,
       [[("jobId", Val.vStr "j1"),
         ("appliedBy", Val.vList [Val.vObj [("userId", Val.vStr "u1"),
           ("appId", Val.vStr "a1"), ("avatarUrl", Val.vStr "")]])]]) :=
  applyForJob_duplicate_conflict _ "j1" "u1" "a2" "t2" _ _ _
    (by decide) (by decide) (by rfl) (by rfl) (by rfl)
    ⟨Val.vObj [("userId", Val.vStr "u1"), ("appId", Val.vStr "a1"),
      ("avatarUrl", Val.vStr "")], by simp, by rfl⟩

/-- C3: removing a document id that occurs nowhere in the stored documents
list of a casting job returns 404, decided by comparing the filtered length
with the original length, and the stored table is unchanged. -/
theorem removeDocument_notFound
    (table : Table) (jid docId now : String) (job : Item) (ds : List Val)
    (hjid : jid ≠ "")
    (hdoc : docId ≠ "")
    (hget : dbGet table "jobId" jid = some job)
    (hdocs : getAttr job "documents" = some (Val.vList ds))
    (hnone : ∀ d ∈ ds, getProp d "id" ≠ some (Val.vStr docId)) :
    removeDocument table (some jid) (some docId) now =
      (errorResponse 404 "Document not found" none, table) := by
  have hst : (strTruthy (some jid) && strTruthy (some docId)) = true := by
    simp [strTruthy, hjid, hdoc]
  have hkeep : ∀ d ∈ ds, (!(getProp d "id" == some (Val.vStr docId))) = true := by
    intro d hd
    simp [hnone d hd]
  have hfil : ds.filter (fun doc => !(getProp doc "id" == some (Val.vStr docId))) = ds :=
    List.filter_eq_self.mpr hkeep
  simp only [removeDocument, hst, Bool.not_true, Bool.false_eq_true, if_false,
    Option.getD_some, hget, hdocs, documentsOrEmpty, hfil, removeDocumentNotFound,
    beq_self_eq_true, if_true]

theorem removeDocument_notFound_witness :
    removeDocument [[("jobId", Val.vStr "j1"),
        ("documents", Val.vList [Val.vObj [("id", Val.vStr "d1"),
          ("url", Val.vStr "u"), ("type", Val.vStr "pdf")]])]]
      (some "j1") (some "d9") "t2" =
      (errorResponse 404 "Document not found" none,
       [[("jobId", Val.vStr "j1"),
         ("documents", Val.vList [Val.vObj [("id", Val.vStr "d1"),
           ("url", Val.vStr "u"), ("type", Val.vStr "pdf")]])]]) :=
  removeDocument_notFound _ "j1" "d9" "t2" _ _
    (by decide) (by decide) (by rfl) (by rfl) (by decide)

/-- C9: removing any document id from a stored casting job whose documents
attribute is absent succeeds with 200 instead of returning 404, because the
filtered length 0 is compared with the optional-chained length of the absent
attribute, which never compares equal; the write stores an empty documents
list and bumps updatedAt. -/
theorem removeDocument_absentAttribute
    (table : Table) (jid docId now : String) (job : Item)
    (hjid : jid ≠ "")
    (hdoc : docId ≠ "")
    (hget : dbGet table "jobId" jid = some job)
    (habs : getAttr job "documents" = none) :
    (removeDocument table (some jid) (some docId) now).1.statusCode = 200 ∧
    dbGet (removeDocument table (some jid) (some docId) now).2 "jobId" jid =
      some (applyAssignments job
        [("documents", Val.vList []), ("updatedAt", Val.vStr now)]) ∧
    getAttr (applyAssignments job
        [("documents", Val.vList []), ("updatedAt", Val.vStr now)]) "documents" =
      some (Val.vList []) ∧
    getAttr (applyAssignments job
        [("documents", Val.vList []), ("updatedAt", Val.vStr now)]) "updatedAt" =
      some (Val.vStr now) := by
  have hst : (strTruthy (some jid) && strTruthy (some docId)) = true := by
    simp [strTruthy, hjid, hdoc]
  have hred : removeDocument table (some jid) (some docId) now =
      (successResponse 200 (Val.vObj
        [("success", Val.vBool true),
         ("message", Val.vStr "Document removed"),
         ("job", Val.vObj (applyAssignments job
           [("documents", Val.vList []), ("updatedAt", Val.vStr now)]))]),
       dbUpdate table "jobId" jid
         [("documents", Val.vList []), ("updatedAt", Val.vStr now)]) := by
    simp only [removeDocument, hst, Bool.not_true, Bool.false_eq_true, if_false,
      Option.getD_some, hget, habs, documentsOrEmpty, removeDocumentNotFound,
      List.filter_nil, Bool.false_eq_true, if_false]
  have happly : applyAssignments job
      [("documents", Val.vList []), ("updatedAt", Val.vStr now)] =
      setAttr (setAttr job "documents" (Val.vList [])) "updatedAt" (Val.vStr now) := rfl
  refine ⟨by rw [hred]; rfl, ?_, ?_, ?_⟩
  · rw [hred]
    refine dbGet_dbUpdate table "jobId" jid _ job hget ?_
    intro p hp
    simp only [List.mem_cons, List.not_mem_nil, or_false] at hp
    rcases hp with hp | hp <;> subst hp <;> simp
  · rw [happly, getSetNe _ _ _ _ (by decide)]
    exact getSetSelf _ _ _
  · rw [happly]
    exact getSetSelf _ _ _

theorem removeDocument_absentAttribute_witness :
    (removeDocument [[("jobId", Val.vStr "j1")]] (some "j1") (some "d9") "t2").1.statusCode =
      200 ∧
    dbGet (removeDocument [[("jobId", Val.vStr "j1")]] (some "j1") (some "d9") "t2").2
        "jobId" "j1" =
      some (applyAssignments [("jobId", Val.vStr "j1")]
        [("documents", Val.vList []), ("updatedAt", Val.vStr "t2")]) ∧
    getAttr (applyAssignments [("jobId", Val.vStr "j1")]
        [("documents", Val.vList []), ("updatedAt", Val.vStr "t2")]) "documents" =
      some (Val.vList []) ∧
    getAttr (applyAssignments [("jobId", Val.vStr "j1")]
        [("documents", Val.vList []), ("updatedAt", Val.vStr "t2")]) "updatedAt" =
      some (Val.vStr "t2") :=
  removeDocument_absentAttribute _ "j1" "d9" "t2" _
    (by decide) (by decide) (by rfl) (by rfl)

/-- The claim's acceptance condition on the authorizer headers: the
Authorization header (or, when it is absent or empty, the lowercase
authorization header) equals exactly the hardcoded bearer token. -/
def claimedAcceptCondition (h : AuthHeaders) : Prop :=
  h.Authorization = some "Bearer mysecrettoken" ∨
    ((h.Authorization = none ∨ h.Authorization = some "") ∧
      h.authorization = some "Bearer mysecrettoken")

theorem requestToken_secret_iff (h : AuthHeaders) :
    requestToken h = some "Bearer mysecrettoken" ↔ claimedAcceptCondition h := by
  unfold requestToken claimedAcceptCondition
  match hA : h.Authorization with
  | none => simp
  | some s =>
    by_cases hs : s = ""
    · subst hs
      simp
    · have hb : (s == "") = false := by simpa using hs
      simp [hb, hs]

/-- C10: the API-gateway authorizer returns an Allow policy exactly when the
Authorization header (or, when that is absent or empty, the lowercase
authorization header) equals the hardcoded string Bearer mysecrettoken; on
every other input, an absent header included, it returns a Deny policy whose
context carries the reason Invalid token. -/
theorem authorizer_allow_iff (h : AuthHeaders) (arn : String) :
    (authorizer h arn =
        generatePolicy "user" "Allow" arn [("poweredBy", "Artisthub")] ↔
      claimedAcceptCondition h) ∧
    (¬claimedAcceptCondition h →
      authorizer h arn = generatePolicy "user" "Deny" arn
        [("poweredBy", "Artisthub"), ("reason", "Invalid token")]) := by
  by_cases hc : claimedAcceptCondition h
  · have htok : requestToken h = some "Bearer mysecrettoken" :=
      (requestToken_secret_iff h).mpr hc
    constructor
    · simp [authorizer, htok, hc]
    · intro hfalse
      exact absurd hc hfalse
  · have htok : requestToken h ≠ some "Bearer mysecrettoken" :=
      fun he => hc ((requestToken_secret_iff h).mp he)
    have hb : (requestToken h == some "Bearer mysecrettoken") = false := by
      simpa using htok
    constructor
    · simp only [authorizer, hb, Bool.not_false, if_true]
      constructor
      · intro he
        exfalso
        have : ("Deny" : String) = "Allow" := by
          have := congrArg (fun r => r.policyDocument.Statement) he
          simpa [generatePolicy] using this
        simp at this
      · intro he
        exact absurd he hc
    · intro _
      simp [authorizer, hb]

theorem authorizer_allow_iff_witness :
    (authorizer ⟨some "Bearer mysecrettoken", none⟩ "arn:route" =
      generatePolicy "user" "Allow" "arn:route" [("poweredBy", "Artisthub")]) ∧
    (authorizer ⟨none, some "bad"⟩ "arn:route" =
      generatePolicy "user" "Deny" "arn:route"
        [("poweredBy", "Artisthub"), ("reason", "Invalid token")]) :=
  ⟨(authorizer_allow_iff ⟨some "Bearer mysecrettoken", none⟩ "arn:route").1.mpr
      (Or.inl rfl),
   (authorizer_allow_iff ⟨none, some "bad"⟩ "arn:route").2
      (by simp [claimedAcceptCondition])⟩

/-- C5: decoding a pagination token after encoding it is the identity on
continuation keys: the base64 of the UTF-8 bytes of the JSON serialization
of the key, decoded back through base64, UTF-8 and the JSON parse, yields
exactly the original key. -/
theorem pagination_token_roundtrip (k : LastKey) :
    decodeLastKeyToken (encodeLastKeyToken k) = some k := by
  unfold encodeLastKeyToken decodeLastKeyToken
  rw [base64Decode_base64Encode (utf8Encode (serializeLastKey k)) (utf8Encode_lt _)]
  simp only [utf8Decode_utf8Encode, parseLastKey_serializeLastKey]

/-- C1 (code bug): the no-fields 400 guard of updateUser and updateJob is
unreachable, because the updatedAt assignment is pushed before the
emptiness check; an update of an existing record always succeeds with 200 —
even with a body containing none of the updateable fields — and always
bumps updatedAt to the current timestamp. -/
theorem update_empty_body_succeeds :
    (∀ (table : Table) (jid now : String) (body : Item) (job : Item),
      jid ≠ "" →
      dbGet table "jobId" jid = some job →
      (updateJob table (some jid) body now).1.statusCode = 200 ∧
      dbGet (updateJob table (some jid) body now).2 "jobId" jid =
        some (applyAssignments job
          (buildUpdateAssignments jobUpdateableFields body now)) ∧
      getAttr (applyAssignments job
          (buildUpdateAssignments jobUpdateableFields body now)) "updatedAt" =
        some (Val.vStr now)) ∧
    (∀ (table : Table) (uid now : String) (body : Item) (user : Item),
      uid ≠ "" →
      dbGet table "userId" uid = some user →
      getAttr body "username" = none →
      (updateUser table (some uid) body now).1.statusCode = 200 ∧
      dbGet (updateUser table (some uid) body now).2 "userId" uid =
        some (applyAssignments user
          (buildUpdateAssignments userUpdateableFields body now)) ∧
      getAttr (applyAssignments user
          (buildUpdateAssignments userUpdateableFields body now)) "updatedAt" =
        some (Val.vStr now)) := by
  constructor
  · intro table jid now body job hjid hget
    have hst : strTruthy (some jid) = true := by simp [strTruthy, hjid]
    have hlen : ¬(buildUpdateAssignments jobUpdateableFields body now).length = 0 := by
      simp [buildUpdateAssignments]
    have hred : updateJob table (some jid) body now =
        (successResponse 200 (Val.vObj
          [("success", Val.vBool true),
           ("message", Val.vStr "Job updated successfully"),
           ("job", Val.vObj (applyAssignments job
             (buildUpdateAssignments jobUpdateableFields body now)))]),
         dbUpdate table "jobId" jid
           (buildUpdateAssignments jobUpdateableFields body now)) := by
      simp only [updateJob, hst, Bool.not_true, Bool.false_eq_true, if_false,
        Option.getD_some, hget, hlen, if_false]
    refine ⟨by rw [hred]; rfl, ?_, ?_⟩
    · rw [hred]
      refine dbGet_dbUpdate table "jobId" jid _ job hget ?_
      intro p hp
      rcases buildUpdate_keys jobUpdateableFields body now p hp with hk | hk
      · revert hk
        have : "jobId" ∉ jobUpdateableFields := by decide
        intro hk hcontra
        rw [hcontra] at hk
        exact this hk
      · rw [hk]
        decide
    · exact buildUpdate_updatedAt jobUpdateableFields body now job
  · intro table uid now body user huid hget husername
    have hst : strTruthy (some uid) = true := by simp [strTruthy, huid]
    have hlen : ¬(buildUpdateAssignments userUpdateableFields body now).length = 0 := by
      simp [buildUpdateAssignments]
    have hred : updateUser table (some uid) body now =
        (successResponse 200 (Val.vObj
          [("success", Val.vBool true),
           ("message", Val.vStr "User updated successfully"),
           ("user", Val.vObj (applyAssignments user
             (buildUpdateAssignments userUpdateableFields body now)))]),
         dbUpdate table "userId" uid
           (buildUpdateAssignments userUpdateableFields body now)) := by
      simp only [updateUser, hst, Bool.not_true, Bool.false_eq_true, if_false,
        Option.getD_some, hget, husername, Bool.false_eq_true, if_false, hlen]
    refine ⟨by rw [hred]; rfl, ?_, ?_⟩
    · rw [hred]
      refine dbGet_dbUpdate table "userId" uid _ user hget ?_
      intro p hp
      rcases buildUpdate_keys userUpdateableFields body now p hp with hk | hk
      · revert hk
        have : "userId" ∉ userUpdateableFields := by decide
        intro hk hcontra
        rw [hcontra] at hk
        exact this hk
      · rw [hk]
        decide
    · exact buildUpdate_updatedAt userUpdateableFields body now user

theorem update_empty_body_succeeds_witness :
    ((updateJob [[("jobId", Val.vStr "j1"), ("updatedAt", Val.vStr "t0")]]
        (some "j1") [] "t1").1.statusCode = 200 ∧
      dbGet (updateJob [[("jobId", Val.vStr "j1"), ("updatedAt", Val.vStr "t0")]]
          (some "j1") [] "t1").2 "jobId" "j1" =
        some (applyAssignments [("jobId", Val.vStr "j1"), ("updatedAt", Val.vStr "t0")]
          (buildUpdateAssignments jobUpdateableFields [] "t1")) ∧
      getAttr (applyAssignments [("jobId", Val.vStr "j1"), ("updatedAt", Val.vStr "t0")]
          (buildUpdateAssignments jobUpdateableFields [] "t1")) "updatedAt" =
        some (Val.vStr "t1")) ∧
    ((updateUser [[("userId", Val.vStr "u1"), ("updatedAt", Val.vStr "t0")]]
        (some "u1") [] "t1").1.statusCode = 200 ∧
      dbGet (updateUser [[("userId", Val.vStr "u1"), ("updatedAt", Val.vStr "t0")]]
          (some "u1") [] "t1").2 "userId" "u1" =
        some (applyAssignments [("userId", Val.vStr "u1"), ("updatedAt", Val.vStr "t0")]
          (buildUpdateAssignments userUpdateableFields [] "t1")) ∧
      getAttr (applyAssignments [("userId", Val.vStr "u1"), ("updatedAt", Val.vStr "t0")]
          (buildUpdateAssignments userUpdateableFields [] "t1")) "updatedAt" =
        some (Val.vStr "t1")) :=
  ⟨update_empty_body_succeeds.1 _ "j1" "t1" [] _ (by decide) (by rfl),
   update_empty_body_succeeds.2 _ "u1" "t1" [] _ (by decide) (by rfl) (by rfl)⟩

/-- C6: an update request whose body carries a basicDetails object makes
updateUser store exactly that object as the new attribute value: the stored
basicDetails equals the supplied object, and any key the request omitted is
absent from it, whatever the previously stored sub-object held — no
key-by-key merge happens. -/
theorem updateUser_replaces_subobject
    (table : Table) (uid now : String) (body user : Item)
    (kvs : List (String × Val))
    (huid : uid ≠ "")
    (hget : dbGet table "userId" uid = some user)
    (husername : getAttr body "username" = none)
    (hbody : getAttr body "basicDetails" = some (Val.vObj kvs)) :
    (updateUser table (some uid) body now).1.statusCode = 200 ∧
    dbGet (updateUser table (some uid) body now).2 "userId" uid =
      some (applyAssignments user
        (buildUpdateAssignments userUpdateableFields body now)) ∧
    getAttr (applyAssignments user
        (buildUpdateAssignments userUpdateableFields body now)) "basicDetails" =
      some (Val.vObj kvs) ∧
    (∀ key, key ∉ kvs.map Prod.fst →
      getProp (Val.vObj kvs) key = none) := by
  have hst : strTruthy (some uid) = true := by simp [strTruthy, huid]
  have hlen : ¬(buildUpdateAssignments userUpdateableFields body now).length = 0 := by
    simp [buildUpdateAssignments]
  have hred : updateUser table (some uid) body now =
      (successResponse 200 (Val.vObj
        [("success", Val.vBool true),
         ("message", Val.vStr "User updated successfully"),
         ("user", Val.vObj (applyAssignments user
           (buildUpdateAssignments userUpdateableFields body now)))]),
       dbUpdate table "userId" uid
         (buildUpdateAssignments userUpdateableFields body now)) := by
    simp only [updateUser, hst, Bool.not_true, Bool.false_eq_true, if_false,
      Option.getD_some, hget, husername, Bool.false_eq_true, if_false, hlen]
  refine ⟨by rw [hred]; rfl, ?_, ?_, ?_⟩
  · rw [hred]
    refine dbGet_dbUpdate table "userId" uid _ user hget ?_
    intro p hp
    rcases buildUpdate_keys userUpdateableFields body now p hp with hk | hk
    · revert hk
      have : "userId" ∉ userUpdateableFields := by decide
      intro hk hcontra
      rw [hcontra] at hk
      exact this hk
    · rw [hk]
      decide
  · exact buildUpdate_field userUpdateableFields body now user
      ["username", "email", "privacy", "currentPlan", "view", "aboutMe",
       "device_tokens", "subscription", "tokens"]
      ["contactDetails", "physicalStats", "skills", "workExperience",
       "portfolio", "appliedJobs", "requestSent", "requestReceived", "connections"]
      "basicDetails" (Val.vObj kvs) rfl (by decide) hbody (by decide)
  · intro key hkey
    exact getAttrNone kvs key hkey

theorem updateUser_replaces_subobject_witness :
    (updateUser [[("userId", Val.vStr "u1"),
        ("basicDetails", Val.vObj [("firstName", Val.vStr "Ann"),
          ("city", Val.vStr "Pune")])]]
      (some "u1") [("basicDetails", Val.vObj [("firstName", Val.vStr "Bea")])]
      "t1").1.statusCode = 200 ∧
    dbGet (updateUser [[("userId", Val.vStr "u1"),
        ("basicDetails", Val.vObj [("firstName", Val.vStr "Ann"),
          ("city", Val.vStr "Pune")])]]
      (some "u1") [("basicDetails", Val.vObj [("firstName", Val.vStr "Bea")])]
      "t1").2 "userId" "u1" =
      some (applyAssignments [("userId", Val.vStr "u1"),
        ("basicDetails", Val.vObj [("firstName", Val.vStr "Ann"),
          ("city", Val.vStr "Pune")])]
        (buildUpdateAssignments userUpdateableFields
          [("basicDetails", Val.vObj [("firstName", Val.vStr "Bea")])] "t1")) ∧
    getAttr (applyAssignments [("userId", Val.vStr "u1"),
        ("basicDetails", Val.vObj [("firstName", Val.vStr "Ann"),
          ("city", Val.vStr "Pune")])]
        (buildUpdateAssignments userUpdateableFields
          [("basicDetails", Val.vObj [("firstName", Val.vStr "Bea")])] "t1"))
        "basicDetails" =
      some (Val.vObj [("firstName", Val.vStr "Bea")]) ∧
    (∀ key, key ∉ ([("firstName", Val.vStr "Bea")].map Prod.fst) →
      getProp (Val.vObj [("firstName", Val.vStr "Bea")]) key = none) :=
  updateUser_replaces_subobject _ "u1" "t1" _ _ _
    (by decide) (by rfl) (by rfl) (by rfl)

/-- C4: creating a user with only username x and email x at y.com returns 201
with view 0 and createdAt equal to updatedAt, and any later create whose
body carries an already-stored username is answered 409 by the username
index query, whatever its other fields. -/
theorem createUser_conflict_on_duplicate_username :
    ((createUser [] [("username", Val.vStr "x"), ("email", Val.vStr "x@y.com")]
        "uid-1" "t1").1.statusCode = 201 ∧
      getPath (getProp (createUser []
          [("username", Val.vStr "x"), ("email", Val.vStr "x@y.com")]
          "uid-1" "t1").1.body "user") "view" = some (Val.vNum 0) ∧
      getPath (getProp (createUser []
          [("username", Val.vStr "x"), ("email", Val.vStr "x@y.com")]
          "uid-1" "t1").1.body "user") "createdAt" =
        getPath (getProp (createUser []
          [("username", Val.vStr "x"), ("email", Val.vStr "x@y.com")]
          "uid-1" "t1").1.body "user") "updatedAt") ∧
    (∀ (table : Table) (body : Item) (gid now : String) (u : String),
      (∃ it ∈ table, getAttr it "username" = some (Val.vStr u)) →
      u ≠ "" →
      getAttr body "username" = some (Val.vStr u) →
      truthyOpt (getAttr body "email") = true →
      createUser table body gid now =
        (errorResponse 409 "Username already exists" none, table)) := by
  constructor
  · refine ⟨rfl, rfl, rfl⟩
  · intro table body gid now u hex hu husr hemail
    have hval : validateRequiredFields body ["username", "email"] = none := by
      have h1 : truthyOpt (getAttr body "username") = true := by
        rw [husr]
        simp [truthyOpt, truthy, hu]
      simp [validateRequiredFields, h1, hemail]
    have hempty : (queryUsernameIndex table (Val.vStr u)).isEmpty = false := by
      rcases hex with ⟨it, hmem, hattr⟩
      have hin : it ∈ queryUsernameIndex table (Val.vStr u) :=
        List.mem_filter.mpr ⟨hmem, by simp [hattr]⟩
      rcases hq : queryUsernameIndex table (Val.vStr u) with - | ⟨a, l⟩
      · rw [hq] at hin
        simp at hin
      · simp [List.isEmpty]
    simp only [createUser, hval, husr, Option.getD_some, hempty, Bool.not_false,
      if_true]

theorem createUser_conflict_on_duplicate_username_witness :
    createUser
      (createUser [] [("username", Val.vStr "x"), ("email", Val.vStr "x@y.com")]
        "uid-1" "t1").2
      [("username", Val.vStr "x"), ("email", Val.vStr "other@z.com")]
      "uid-2" "t2" =
      (errorResponse 409 "Username already exists" none,
       (createUser [] [("username", Val.vStr "x"), ("email", Val.vStr "x@y.com")]
         "uid-1" "t1").2) :=
  createUser_conflict_on_duplicate_username.2 _ _ "uid-2" "t2" "x"
    (by decide) (by decide) (by rfl) (by rfl)

theorem getAttr_after_append (user : Item) (attr : String) (xs : List Val)
    (entry : Val) (now : String)
    (hlist : getAttr user attr = some (Val.vList xs) ∨
      (getAttr user attr = none ∧ xs = []))
    (hne : attr ≠ "updatedAt") :
    getAttr (applyAssignments user
      [(attr, listAppend (getAttr user attr) [entry]), ("updatedAt", Val.vStr now)])
      attr = some (Val.vList (xs ++ [entry])) := by
  have happly : applyAssignments user
      [(attr, listAppend (getAttr user attr) [entry]), ("updatedAt", Val.vStr now)] =
      setAttr (setAttr user attr (listAppend (getAttr user attr) [entry]))
        "updatedAt" (Val.vStr now) := rfl
  rw [happly, getSetNe _ _ _ _ (Ne.symm hne), getSetSelf]
  rcases hlist with h | ⟨h, hxs⟩
  · rw [h]
    rfl
  · rw [h, hxs]
    rfl

theorem getAttr_updatedAt_after_append (user : Item) (attr : String) (v : Val)
    (now : String) :
    getAttr (applyAssignments user [(attr, v), ("updatedAt", Val.vStr now)])
      "updatedAt" = some (Val.vStr now) :=
  getSetSelf _ _ _

theorem dbGet_after_append (table : Table) (kn kv : String) (user : Item)
    (attr : String) (v : Val) (now : String)
    (hget : dbGet table kn kv = some user)
    (h1 : attr ≠ kn) (h2 : "updatedAt" ≠ kn) :
    dbGet (dbUpdate table kn kv [(attr, v), ("updatedAt", Val.vStr now)]) kn kv =
      some (applyAssignments user [(attr, v), ("updatedAt", Val.vStr now)]) := by
  refine dbGet_dbUpdate table kn kv _ user hget ?_
  intro p hp
  simp only [List.mem_cons, List.not_mem_nil, or_false] at hp
  rcases hp with hp | hp <;> subst hp
  · exact h1
  · exact h2

theorem freshAppendUnique (xs : List Val) (entry : Val) (idKey : String) (idVal : Val)
    (hfresh : ∀ e ∈ xs, getProp e idKey ≠ some idVal) :
    ∀ e ∈ xs ++ [entry], getProp e idKey = some idVal → e = entry := by
  intro e he hid
  rcases List.mem_append.mp he with h | h
  · exact absurd hid (hfresh e h)
  · simpa using h

/-- C7, part one: addWorkExperience appends one entry. -/
theorem addWorkExperience_appends
    (table : Table) (uid wid now : String) (body user : Item) (xs : List Val)
    (huid : uid ≠ "")
    (hget : dbGet table "userId" uid = some user)
    (hval : validateRequiredFields body ["workType", "brand"] = none)
    (hlist : getAttr user "workExperience" = some (Val.vList xs) ∨
      (getAttr user "workExperience" = none ∧ xs = []))
    (hfresh : ∀ e ∈ xs, getProp e "id" ≠ some (Val.vStr wid)) :
    (addWorkExperience table (some uid) body wid now).1.statusCode = 201 ∧
    ∃ entry, getProp entry "id" = some (Val.vStr wid) ∧
      dbGet (addWorkExperience table (some uid) body wid now).2 "userId" uid =
        some (applyAssignments user
          [("workExperience", listAppend (getAttr user "workExperience") [entry]),
           ("updatedAt", Val.vStr now)]) ∧
      getAttr (applyAssignments user
          [("workExperience", listAppend (getAttr user "workExperience") [entry]),
           ("updatedAt", Val.vStr now)]) "workExperience" =
        some (Val.vList (xs ++ [entry])) ∧
      getAttr (applyAssignments user
          [("workExperience", listAppend (getAttr user "workExperience") [entry]),
           ("updatedAt", Val.vStr now)]) "updatedAt" = some (Val.vStr now) ∧
      (∀ e ∈ xs ++ [entry], getProp e "id" = some (Val.vStr wid) → e = entry) := by
  have hst : strTruthy (some uid) = true := by simp [strTruthy, huid]
  refine ⟨?_, ?_⟩
  · simp only [addWorkExperience, hst, Bool.not_true, Bool.false_eq_true, if_false,
      hval, Option.getD_some, hget]
    rfl
  · refine ⟨Val.vObj
      [("id", Val.vStr wid),
       ("workType", (getAttr body "workType").getD Val.vNull),
       ("brand", (getAttr body "brand").getD Val.vNull),
       ("verified", (getAttr body "verified").getD (Val.vBool false)),
       ("workLink", jsOr (getAttr body "workLink") (Val.vStr "")),
       ("createdAt", Val.vStr now)], rfl, ?_, ?_, ?_, ?_⟩
    · simp only [addWorkExperience, hst, Bool.not_true, Bool.false_eq_true, if_false,
        hval, Option.getD_some, hget]
      exact dbGet_after_append table "userId" uid user "workExperience" _ now hget
        (by decide) (by decide)
    · exact getAttr_after_append user "workExperience" xs _ now hlist (by decide)
    · exact getAttr_updatedAt_after_append user "workExperience" _ now
    · exact freshAppendUnique xs _ "id" (Val.vStr wid) hfresh

/-- C7, part two: addPortfolioItem appends one entry. -/
theorem addPortfolioItem_appends
    (table : Table) (uid pid now : String) (body user : Item) (xs : List Val)
    (huid : uid ≠ "")
    (hget : dbGet table "userId" uid = some user)
    (hval : validateRequiredFields body ["url", "type"] = none)
    (hlist : getAttr user "portfolio" = some (Val.vList xs) ∨
      (getAttr user "portfolio" = none ∧ xs = []))
    (hfresh : ∀ e ∈ xs, getProp e "id" ≠ some (Val.vStr pid)) :
    (addPortfolioItem table (some uid) body pid now).1.statusCode = 201 ∧
    ∃ entry, getProp entry "id" = some (Val.vStr pid) ∧
      dbGet (addPortfolioItem table (some uid) body pid now).2 "userId" uid =
        some (applyAssignments user
          [("portfolio", listAppend (getAttr user "portfolio") [entry]),
           ("updatedAt", Val.vStr now)]) ∧
      getAttr (applyAssignments user
          [("portfolio", listAppend (getAttr user "portfolio") [entry]),
           ("updatedAt", Val.vStr now)]) "portfolio" =
        some (Val.vList (xs ++ [entry])) ∧
      getAttr (applyAssignments user
          [("portfolio", listAppend (getAttr user "portfolio") [entry]),
           ("updatedAt", Val.vStr now)]) "updatedAt" = some (Val.vStr now) ∧
      (∀ e ∈ xs ++ [entry], getProp e "id" = some (Val.vStr pid) → e = entry) := by
  have hst : strTruthy (some uid) = true := by simp [strTruthy, huid]
  refine ⟨?_, ?_⟩
  · simp only [addPortfolioItem, hst, Bool.not_true, Bool.false_eq_true, if_false,
      hval, Option.getD_some, hget]
    rfl
  · refine ⟨Val.vObj
      [("id", Val.vStr pid),
       ("url", (getAttr body "url").getD Val.vNull),
       ("type", (getAttr body "type").getD Val.vNull),
       ("selected", (getAttr body "selected").getD (Val.vBool false)),
       ("uploadedAt", Val.vStr now)], rfl, ?_, ?_, ?_, ?_⟩
    · simp only [addPortfolioItem, hst, Bool.not_true, Bool.false_eq_true, if_false,
        hval, Option.getD_some, hget]
      exact dbGet_after_append table "userId" uid user "portfolio" _ now hget
        (by decide) (by decide)
    · exact getAttr_after_append user "portfolio" xs _ now hlist (by decide)
    · exact getAttr_updatedAt_after_append user "portfolio" _ now
    · exact freshAppendUnique xs _ "id" (Val.vStr pid) hfresh

/-- C7, part three: addConnection appends one entry. -/
theorem addConnection_appends
    (table : Table) (uid cid chid now : String) (body user : Item) (xs : List Val)
    (huid : uid ≠ "")
    (hget : dbGet table "userId" uid = some user)
    (hval : validateRequiredFields body ["senderId", "receiverId"] = none)
    (hlist : getAttr user "connections" = some (Val.vList xs) ∨
      (getAttr user "connections" = none ∧ xs = []))
    (hfresh : ∀ e ∈ xs, getProp e "connectionId" ≠ some (Val.vStr cid)) :
    (addConnection table (some uid) body cid chid now).1.statusCode = 201 ∧
    ∃ entry, getProp entry "connectionId" = some (Val.vStr cid) ∧
      dbGet (addConnection table (some uid) body cid chid now).2 "userId" uid =
        some (applyAssignments user
          [("connections", listAppend (getAttr user "connections") [entry]),
           ("updatedAt", Val.vStr now)]) ∧
      getAttr (applyAssignments user
          [("connections", listAppend (getAttr user "connections") [entry]),
           ("updatedAt", Val.vStr now)]) "connections" =
        some (Val.vList (xs ++ [entry])) ∧
      getAttr (applyAssignments user
          [("connections", listAppend (getAttr user "connections") [entry]),
           ("updatedAt", Val.vStr now)]) "updatedAt" = some (Val.vStr now) ∧
      (∀ e ∈ xs ++ [entry], getProp e "connectionId" = some (Val.vStr cid) → e = entry) := by
  have hst : strTruthy (some uid) = true := by simp [strTruthy, huid]
  refine ⟨?_, ?_⟩
  · simp only [addConnection, hst, Bool.not_true, Bool.false_eq_true, if_false,
      hval, Option.getD_some, hget]
    rfl
  · refine ⟨Val.vObj
      [("connectionId", Val.vStr cid),
       ("senderId", (getAttr body "senderId").getD Val.vNull),
       ("receiverId", (getAttr body "receiverId").getD Val.vNull),
       ("chatId", Val.vStr chid),
       ("connectionStatus", Val.vStr "pending"),
       ("connectedAt", Val.vStr now)], rfl, ?_, ?_, ?_, ?_⟩
    · simp only [addConnection, hst, Bool.not_true, Bool.false_eq_true, if_false,
        hval, Option.getD_some, hget]
      exact dbGet_after_append table "userId" uid user "connections" _ now hget
        (by decide) (by decide)
    · exact getAttr_after_append user "connections" xs _ now hlist (by decide)
    · exact getAttr_updatedAt_after_append user "connections" _ now
    · exact freshAppendUnique xs _ "connectionId" (Val.vStr cid) hfresh

/-- C7, part four: applyForJob appends one application when no duplicate is
found. -/
theorem applyForJob_appends
    (table : Table) (jid uid2 gid now : String) (body job : Item) (xs : List Val)
    (hjid : jid ≠ "")
    (huid : uid2 ≠ "")
    (hbody : getAttr body "userId" = some (Val.vStr uid2))
    (hget : dbGet table "jobId" jid = some job)
    (hlist : getAttr job "appliedBy" = some (Val.vList xs) ∨
      (getAttr job "appliedBy" = none ∧ xs = []))
    (hnodup : ∀ app ∈ xs, getProp app "userId" ≠ some (Val.vStr uid2))
    (hfresh : ∀ e ∈ xs, getProp e "appId" ≠ some (Val.vStr gid)) :
    (applyForJob table (some jid) body gid now).1.statusCode = 201 ∧
    ∃ entry, getProp entry "appId" = some (Val.vStr gid) ∧
      dbGet (applyForJob table (some jid) body gid now).2 "jobId" jid =
        some (applyAssignments job
          [("appliedBy", listAppend (getAttr job "appliedBy") [entry]),
           ("updatedAt", Val.vStr now)]) ∧
      getAttr (applyAssignments job
          [("appliedBy", listAppend (getAttr job "appliedBy") [entry]),
           ("updatedAt", Val.vStr now)]) "appliedBy" =
        some (Val.vList (xs ++ [entry])) ∧
      getAttr (applyAssignments job
          [("appliedBy", listAppend (getAttr job "appliedBy") [entry]),
           ("updatedAt", Val.vStr now)]) "updatedAt" = some (Val.vStr now) ∧
      (∀ e ∈ xs ++ [entry], getProp e "appId" = some (Val.vStr gid) → e = entry) := by
  have hst : strTruthy (some jid) = true := by simp [strTruthy, hjid]
  have hval : validateRequiredFields body ["userId"] = none := by
    have h1 : truthyOpt (getAttr body "userId") = true := by
      rw [hbody]
      simp [truthyOpt, truthy, huid]
    simp [validateRequiredFields, h1]
  have hscan : (match getAttr job "appliedBy" with
      | some (Val.vList apps) =>
        apps.any (fun app => getProp app "userId" ==
          some ((getAttr body "userId").getD Val.vNull))
      | _ => false) = false := by
    rcases hlist with h | ⟨h, -⟩
    · rw [h]
      refine List.any_eq_false.mpr ?_
      intro app hmem
      rw [hbody]
      simpa using hnodup app hmem
    · rw [h]
  refine ⟨?_, ?_⟩
  · simp only [applyForJob, hst, Bool.not_true, Bool.false_eq_true, if_false,
      hval, Option.getD_some, hget, hscan, if_false]
    rfl
  · refine ⟨Val.vObj
      [("userId", (getAttr body "userId").getD Val.vNull),
       ("appId", Val.vStr gid),
       ("avatarUrl", jsOr (getAttr body "avatarUrl") (Val.vStr ""))], ?_, ?_, ?_, ?_, ?_⟩
    · simp [getProp, getAttr]
    · simp only [applyForJob, hst, Bool.not_true, Bool.false_eq_true, if_false,
        hval, Option.getD_some, hget, hscan, if_false]
      exact dbGet_after_append table "jobId" jid job "appliedBy" _ now hget
        (by decide) (by decide)
    · exact getAttr_after_append job "appliedBy" xs _ now hlist (by decide)
    · exact getAttr_updatedAt_after_append job "appliedBy" _ now
    · exact freshAppendUnique xs _ "appId" (Val.vStr gid) hfresh

/-- C7, part five: addDocument appends one document. -/
theorem addDocument_appends
    (table : Table) (jid did ty now : String) (body job : Item) (xs : List Val)
    (hjid : jid ≠ "")
    (hget : dbGet table "jobId" jid = some job)
    (hval : validateRequiredFields body ["url", "type"] = none)
    (hty : getAttr body "type" = some (Val.vStr ty))
    (htyok : validDocumentTypes.contains ty = true)
    (hlist : getAttr job "documents" = some (Val.vList xs) ∨
      (getAttr job "documents" = none ∧ xs = []))
    (hfresh : ∀ e ∈ xs, getProp e "id" ≠ some (Val.vStr did)) :
    (addDocument table (some jid) body did now).1.statusCode = 201 ∧
    ∃ entry, getProp entry "id" = some (Val.vStr did) ∧
      dbGet (addDocument table (some jid) body did now).2 "jobId" jid =
        some (applyAssignments job
          [("documents", listAppend (getAttr job "documents") [entry]),
           ("updatedAt", Val.vStr now)]) ∧
      getAttr (applyAssignments job
          [("documents", listAppend (getAttr job "documents") [entry]),
           ("updatedAt", Val.vStr now)]) "documents" =
        some (Val.vList (xs ++ [entry])) ∧
      getAttr (applyAssignments job
          [("documents", listAppend (getAttr job "documents") [entry]),
           ("updatedAt", Val.vStr now)]) "updatedAt" = some (Val.vStr now) ∧
      (∀ e ∈ xs ++ [entry], getProp e "id" = some (Val.vStr did) → e = entry) := by
  have hst : strTruthy (some jid) = true := by simp [strTruthy, hjid]
  have htok : (match getAttr body "type" with
      | some (Val.vStr t) => validDocumentTypes.contains t
      | _ => false) = true := by
    rw [hty]
    exact htyok
  refine ⟨?_, ?_⟩
  · simp only [addDocument, hst, Bool.not_true, Bool.false_eq_true, if_false,
      hval, htok, Option.getD_some, hget]
    rfl
  · refine ⟨Val.vObj
      [("id", Val.vStr did),
       ("url", (getAttr body "url").getD Val.vNull),
       ("type", (getAttr body "type").getD Val.vNull)], rfl, ?_, ?_, ?_, ?_⟩
    · simp only [addDocument, hst, Bool.not_true, Bool.false_eq_true, if_false,
        hval, htok, Option.getD_some, hget]
      exact dbGet_after_append table "jobId" jid job "documents" _ now hget
        (by decide) (by decide)
    · exact getAttr_after_append job "documents" xs _ now hlist (by decide)
    · exact getAttr_updatedAt_after_append job "documents" _ now
    · exact freshAppendUnique xs _ "id" (Val.vStr did) hfresh

/-- C7: each successful append handler — addWorkExperience, addPortfolioItem,
addConnection, applyForJob, addDocument — appends exactly one new entry at
the end of the corresponding list attribute (an absent attribute acting as
the empty list), gives it the generated id, which, being fresh, occurs at no
prior entry, bumps updatedAt, and leaves the existing entries unchanged. -/
theorem append_operations_extend_list :
    (∀ (table : Table) (uid wid now : String) (body user : Item) (xs : List Val),
      uid ≠ "" →
      dbGet table "userId" uid = some user →
      validateRequiredFields body ["workType", "brand"] = none →
      (getAttr user "workExperience" = some (Val.vList xs) ∨
        (getAttr user "workExperience" = none ∧ xs = [])) →
      (∀ e ∈ xs, getProp e "id" ≠ some (Val.vStr wid)) →
      (addWorkExperience table (some uid) body wid now).1.statusCode = 201 ∧
      ∃ entry, getProp entry "id" = some (Val.vStr wid) ∧
        dbGet (addWorkExperience table (some uid) body wid now).2 "userId" uid =
          some (applyAssignments user
            [("workExperience", listAppend (getAttr user "workExperience") [entry]),
             ("updatedAt", Val.vStr now)]) ∧
        getAttr (applyAssignments user
            [("workExperience", listAppend (getAttr user "workExperience") [entry]),
             ("updatedAt", Val.vStr now)]) "workExperience" =
          some (Val.vList (xs ++ [entry])) ∧
        getAttr (applyAssignments user
            [("workExperience", listAppend (getAttr user "workExperience") [entry]),
             ("updatedAt", Val.vStr now)]) "updatedAt" = some (Val.vStr now) ∧
        (∀ e ∈ xs ++ [entry], getProp e "id" = some (Val.vStr wid) → e = entry)) ∧
    (∀ (table : Table) (uid pid now : String) (body user : Item) (xs : List Val),
      uid ≠ "" →
      dbGet table "userId" uid = some user →
      validateRequiredFields body ["url", "type"] = none →
      (getAttr user "portfolio" = some (Val.vList xs) ∨
        (getAttr user "portfolio" = none ∧ xs = [])) →
      (∀ e ∈ xs, getProp e "id" ≠ some (Val.vStr pid)) →
      (addPortfolioItem table (some uid) body pid now).1.statusCode = 201 ∧
      ∃ entry, getProp entry "id" = some (Val.vStr pid) ∧
        dbGet (addPortfolioItem table (some uid) body pid now).2 "userId" uid =
          some (applyAssignments user
            [("portfolio", listAppend (getAttr user "portfolio") [entry]),
             ("updatedAt", Val.vStr now)]) ∧
        getAttr (applyAssignments user
            [("portfolio", listAppend (getAttr user "portfolio") [entry]),
             ("updatedAt", Val.vStr now)]) "portfolio" =
          some (Val.vList (xs ++ [entry])) ∧
        getAttr (applyAssignments user
            [("portfolio", listAppend (getAttr user "portfolio") [entry]),
             ("updatedAt", Val.vStr now)]) "updatedAt" = some (Val.vStr now) ∧
        (∀ e ∈ xs ++ [entry], getProp e "id" = some (Val.vStr pid) → e = entry)) ∧
    (∀ (table : Table) (uid cid chid now : String) (body user : Item) (xs : List Val),
      uid ≠ "" →
      dbGet table "userId" uid = some user →
      validateRequiredFields body ["senderId", "receiverId"] = none →
      (getAttr user "connections" = some (Val.vList xs) ∨
        (getAttr user "connections" = none ∧ xs = [])) →
      (∀ e ∈ xs, getProp e "connectionId" ≠ some (Val.vStr cid)) →
      (addConnection table (some uid) body cid chid now).1.statusCode = 201 ∧
      ∃ entry, getProp entry "connectionId" = some (Val.vStr cid) ∧
        dbGet (addConnection table (some uid) body cid chid now).2 "userId" uid =
          some (applyAssignments user
            [("connections", listAppend (getAttr user "connections") [entry]),
             ("updatedAt", Val.vStr now)]) ∧
        getAttr (applyAssignments user
            [("connections", listAppend (getAttr user "connections") [entry]),
             ("updatedAt", Val.vStr now)]) "connections" =
          some (Val.vList (xs ++ [entry])) ∧
        getAttr (applyAssignments user
            [("connections", listAppend (getAttr user "connections") [entry]),
             ("updatedAt", Val.vStr now)]) "updatedAt" = some (Val.vStr now) ∧
        (∀ e ∈ xs ++ [entry], getProp e "connectionId" = some (Val.vStr cid) →
          e = entry)) ∧
    (∀ (table : Table) (jid uid2 gid now : String) (body job : Item) (xs : List Val),
      jid ≠ "" →
      uid2 ≠ "" →
      getAttr body "userId" = some (Val.vStr uid2) →
      dbGet table "jobId" jid = some job →
      (getAttr job "appliedBy" = some (Val.vList xs) ∨
        (getAttr job "appliedBy" = none ∧ xs = [])) →
      (∀ app ∈ xs, getProp app "userId" ≠ some (Val.vStr uid2)) →
      (∀ e ∈ xs, getProp e "appId" ≠ some (Val.vStr gid)) →
      (applyForJob table (some jid) body gid now).1.statusCode = 201 ∧
      ∃ entry, getProp entry "appId" = some (Val.vStr gid) ∧
        dbGet (applyForJob table (some jid) body gid now).2 "jobId" jid =
          some (applyAssignments job
            [("appliedBy", listAppend (getAttr job "appliedBy") [entry]),
             ("updatedAt", Val.vStr now)]) ∧
        getAttr (applyAssignments job
            [("appliedBy", listAppend (getAttr job "appliedBy") [entry]),
             ("updatedAt", Val.vStr now)]) "appliedBy" =
          some (Val.vList (xs ++ [entry])) ∧
        getAttr (applyAssignments job
            [("appliedBy", listAppend (getAttr job "appliedBy") [entry]),
             ("updatedAt", Val.vStr now)]) "updatedAt" = some (Val.vStr now) ∧
        (∀ e ∈ xs ++ [entry], getProp e "appId" = some (Val.vStr gid) → e = entry)) ∧
    (∀ (table : Table) (jid did ty now : String) (body job : Item) (xs : List Val),
      jid ≠ "" →
      dbGet table "jobId" jid = some job →
      validateRequiredFields body ["url", "type"] = none →
      getAttr body "type" = some (Val.vStr ty) →
      validDocumentTypes.contains ty = true →
      (getAttr job "documents" = some (Val.vList xs) ∨
        (getAttr job "documents" = none ∧ xs = [])) →
      (∀ e ∈ xs, getProp e "id" ≠ some (Val.vStr did)) →
      (addDocument table (some jid) body did now).1.statusCode = 201 ∧
      ∃ entry, getProp entry "id" = some (Val.vStr did) ∧
        dbGet (addDocument table (some jid) body did now).2 "jobId" jid =
          some (applyAssignments job
            [("documents", listAppend (getAttr job "documents") [entry]),
             ("updatedAt", Val.vStr now)]) ∧
        getAttr (applyAssignments job
            [("documents", listAppend (getAttr job "documents") [entry]),
             ("updatedAt", Val.vStr now)]) "documents" =
          some (Val.vList (xs ++ [entry])) ∧
        getAttr (applyAssignments job
            [("documents", listAppend (getAttr job "documents") [entry]),
             ("updatedAt", Val.vStr now)]) "updatedAt" = some (Val.vStr now) ∧
        (∀ e ∈ xs ++ [entry], getProp e "id" = some (Val.vStr did) → e = entry)) :=
  ⟨fun table uid wid now body user xs h1 h2 h3 h4 h5 =>
      addWorkExperience_appends table uid wid now body user xs h1 h2 h3 h4 h5,
   fun table uid pid now body user xs h1 h2 h3 h4 h5 =>
      addPortfolioItem_appends table uid pid now body user xs h1 h2 h3 h4 h5,
   fun table uid cid chid now body user xs h1 h2 h3 h4 h5 =>
      addConnection_appends table uid cid chid now body user xs h1 h2 h3 h4 h5,
   fun table jid uid2 gid now body job xs h1 h2 h3 h4 h5 h6 h7 =>
      applyForJob_appends table jid uid2 gid now body job xs h1 h2 h3 h4 h5 h6 h7,
   fun table jid did ty now body job xs h1 h2 h3 h4 h5 h6 h7 =>
      addDocument_appends table jid did ty now body job xs h1 h2 h3 h4 h5 h6 h7⟩

theorem append_operations_extend_list_witness :
    ((addWorkExperience [[("userId", Val.vStr "u1")]] (some "u1")
        [("workType", Val.vStr "tv"), ("brand", Val.vStr "b")] "w1" "t1").1.statusCode =
      201) ∧
    ((addPortfolioItem [[("userId", Val.vStr "u1")]] (some "u1")
        [("url", Val.vStr "http://a"), ("type", Val.vStr "image")] "p1" "t1").1.statusCode =
      201) ∧
    ((addConnection [[("userId", Val.vStr "u1")]] (some "u1")
        [("senderId", Val.vStr "u1"), ("receiverId", Val.vStr "u2")]
        "c1" "ch1" "t1").1.statusCode = 201) ∧
    ((applyForJob [[("jobId", Val.vStr "j1")]] (some "j1")
        [("userId", Val.vStr "u1")] "a1" "t1").1.statusCode = 201) ∧
    ((addDocument [[("jobId", Val.vStr "j1")]] (some "j1")
        [("url", Val.vStr "http://a"), ("type", Val.vStr "pdf")] "d1" "t1").1.statusCode =
      201) :=
  ⟨(append_operations_extend_list.1 _ "u1" "w1" "t1" _ _ []
      (by decide) (by rfl) (by rfl) (Or.inr ⟨by rfl, rfl⟩) (by simp)).1,
   (append_operations_extend_list.2.1 _ "u1" "p1" "t1" _ _ []
      (by decide) (by rfl) (by rfl) (Or.inr ⟨by rfl, rfl⟩) (by simp)).1,
   (append_operations_extend_list.2.2.1 _ "u1" "c1" "ch1" "t1" _ _ []
      (by decide) (by rfl) (by rfl) (Or.inr ⟨by rfl, rfl⟩) (by simp)).1,
   (append_operations_extend_list.2.2.2.1 _ "j1" "u1" "a1" "t1" _ _ []
      (by decide) (by decide) (by rfl) (by rfl) (Or.inr ⟨by rfl, rfl⟩)
      (by simp) (by simp)).1,
   (append_operations_extend_list.2.2.2.2 _ "j1" "d1" "pdf" "t1" _ _ []
      (by decide) (by rfl) (by rfl) (by rfl) (by decide) (Or.inr ⟨by rfl, rfl⟩)
      (by simp)).1⟩

/-- The envelope property the user, casting and auth modules actually keep:
the fixed CORS headers on every response, a success flag and message on
every failure body, and a success flag on every success body. -/
def envelopeOk (r : Response) : Prop :=
  r.headers = corsHeaders ∧
  (400 ≤ r.statusCode →
    getProp r.body "success" = some (Val.vBool false) ∧
    ∃ m, getProp r.body "message" = some (Val.vStr m)) ∧
  (r.statusCode < 400 → getProp r.body "success" = some (Val.vBool true))

theorem envelopeOk_error (code : Nat) (msg : String) (d : Option Val)
    (h4 : 400 ≤ code) : envelopeOk (errorResponse code msg d) := by
  refine ⟨rfl, fun _ => ⟨?_, msg, ?_⟩, fun hlt => ?_⟩
  · simp [errorResponse, getProp, getAttr]
  · simp [errorResponse, getProp, getAttr]
  · exfalso
    have hsc : (errorResponse code msg d).statusCode = code := rfl
    omega

theorem envelopeOk_success (code : Nat) (rest : List (String × Val))
    (h : code < 400) :
    envelopeOk (successResponse code (Val.vObj (("success", Val.vBool true) :: rest))) := by
  refine ⟨rfl, fun h4 => ?_, fun _ => ?_⟩
  · exfalso
    have hsc : (successResponse code
      (Val.vObj (("success", Val.vBool true) :: rest))).statusCode = code := rfl
    omega
  · simp [successResponse, getProp, getAttr]

/-- C8 counterexample: the createTask handler returns its 200 response with
no headers at all — so no CORS header set — and a body that is the echoed
request data with no success flag; and the getUserById success response
carries no message field. -/
theorem response_envelope_counterexample :
    (createTask [] [("id", Val.vNum 1), ("title", Val.vStr "t"),
        ("description", Val.vStr "d")]).1.headers = [] ∧
    getProp (createTask [] [("id", Val.vNum 1), ("title", Val.vStr "t"),
        ("description", Val.vStr "d")]).1.body "success" = none ∧
    (getUserById [[("userId", Val.vStr "u1")]] (some "u1")).statusCode = 200 ∧
    getProp (getUserById [[("userId", Val.vStr "u1")]] (some "u1")).body "success" =
      some (Val.vBool true) ∧
    getProp (getUserById [[("userId", Val.vStr "u1")]] (some "u1")).body "message" =
      none :=
  ⟨rfl, rfl, rfl, rfl, rfl⟩

/-- A stored list attribute read through the or-else-empty default. -/
def listOrEmpty (v : Option Val) : List Val :=
  match v with
  | some (Val.vList xs) => xs
  | _ => []

/-- documentClient.delete by the table's string primary key. -/
def dbDelete : Table → String → String → Table
  | [], _, _ => []
  | it :: rest, keyName, keyVal =>
    if getAttr it keyName == some (Val.vStr keyVal) then rest
    else it :: dbDelete rest keyName keyVal

/-- The getUserByUsername handler (GET /users/username/name). -/
def getUserByUsername (table : Table) (pathUsername : Option String) : Response :=
  if !strTruthy pathUsername then
    errorResponse 400 "Missing required parameter: username" none
  else
    match queryUsernameIndex table (Val.vStr (pathUsername.getD "")) with
    | [] => errorResponse 404 "User not found" none
    | item :: _ =>
      successResponse 200 (Val.vObj
        [("success", Val.vBool true), ("user", Val.vObj item)])

/-- The deleteUser handler (DELETE /users/userId). -/
def deleteUser (table : Table) (pathUserId : Option String) : Response × Table :=
  if !strTruthy pathUserId then
    (errorResponse 400 "Missing required parameter: userId" none, table)
  else
    let uid := pathUserId.getD ""
    match dbGet table "userId" uid with
    | none => (errorResponse 404 "User not found" none, table)
    | some _ =>
      (successResponse 200 (Val.vObj
        [("success", Val.vBool true),
         ("message", Val.vStr "User deleted successfully"),
         ("deletedUserId", Val.vStr uid)]),
       dbDelete table "userId" uid)

/-- The incremented view counter: if_not_exists(view, 0) + 1.  (A stored
non-numeric view would make the conditional write itself fail.) -/
def incrementedView (cur : Option Val) : Val :=
  match cur with
  | some (Val.vNum n) => Val.vNum (n + 1)
  | _ => Val.vNum 1

/-- The incrementUserView handler (PUT /users/userId/view): a single
unconditional update with no existence check, creating the record when the
key is absent. -/
def incrementUserView (table : Table) (pathUserId : Option String)
    (now : String) : Response × Table :=
  if !strTruthy pathUserId then
    (errorResponse 400 "Missing required parameter: userId" none, table)
  else
    let uid := pathUserId.getD ""
    let newView := incrementedView
      (match dbGet table "userId" uid with
       | some it => getAttr it "view"
       | none => none)
    (successResponse 200 (Val.vObj
      [("success", Val.vBool true),
       ("message", Val.vStr "User view incremented"),
       ("view", newView)]),
     dbUpdate table "userId" uid [("view", newView), ("updatedAt", Val.vStr now)])

/-- The searchUsers handler (GET /users/search): the filtered scan itself
runs inside the datastore, so its reply is an input; the handler validates
the query, picks the filter expression by type, and formats the reply. -/
def searchUsers (q searchType : Option String) (scanItems : List Item) : Response :=
  if !strTruthy q then
    errorResponse 400 "Missing required parameter: q" none
  else
    let tp := searchType.getD "category"
    if tp == "category" || tp == "skills" || tp == "username" then
      successResponse 200 (Val.vObj
        [("success", Val.vBool true),
         ("query", Val.vStr (q.getD "")),
         ("type", Val.vStr tp),
         ("count", Val.vNum scanItems.length),
         ("items", Val.vList (scanItems.map Val.vObj))])
    else
      errorResponse 400 "Invalid search type. Use: category, skills, or username" none

/-- The enumerated job categories accepted by createJob. -/
def validJobCategories : List String :=
  ["Acting", "Singing", "Dancing", "Modeling", "Writing", "Editing",
   "Photography", "Makeup", "Voice Acting", "Comedy", "Production", "Design"]

/-- Whether the body's jobCategory is one of the allow-listed strings. -/
def jobCategoryOk (v : Option Val) : Bool :=
  match v with
  | some (Val.vStr s) => validJobCategories.contains s
  | _ => false

/-- Whether the body's jobType is Online or Offline. -/
def jobTypeOk (v : Option Val) : Bool :=
  match v with
  | some (Val.vStr s) => s == "Online" || s == "Offline"
  | _ => false

/-- The createJob handler (POST /casting). -/
def createJob (table : Table) (body : Item) (genJobId now : String) :
    Response × Table :=
  match validateRequiredFields body
      ["userId", "jobTitle", "jobDescription", "jobCategory", "jobType"] with
  | some missing =>
    (errorResponse 400 ("Missing required fields: " ++ joinComma missing) none, table)
  | none =>
    if !jobCategoryOk (getAttr body "jobCategory") then
      (errorResponse 400
        ("Invalid jobCategory. Must be one of: " ++ joinComma validJobCategories)
        none, table)
    else if !jobTypeOk (getAttr body "jobType") then
      (errorResponse 400 "Invalid jobType. Must be Online or Offline" none, table)
    else
      let job : Item :=
        [("jobId", Val.vStr genJobId),
         ("userId", (getAttr body "userId").getD Val.vNull),
         ("jobTitle", (getAttr body "jobTitle").getD Val.vNull),
         ("jobDescription", (getAttr body "jobDescription").getD Val.vNull),
         ("jobCategory", (getAttr body "jobCategory").getD Val.vNull),
         ("jobType", (getAttr body "jobType").getD Val.vNull),
         ("jobLocation", (getAttr body "jobLocation").getD (Val.vList [])),
         ("tags", (getAttr body "tags").getD (Val.vList [])),
         ("view", Val.vNum 0),
         ("verified", Val.vBool false),
         ("isExpired", Val.vBool false),
         ("isCollab", jsOr (getAttr body "isCollab") (Val.vBool false)),
         ("isWishlisted", Val.vBool false),
         ("imageUrl", jsOr (getAttr body "imageUrl") (Val.vStr "")),
         ("expiryDate", jsOr (getAttr body "expiryDate") Val.vNull),
         ("applicationStatus", Val.vNum 0),
         ("appliedBy", Val.vList []),
         ("recruiter", (getAttr body "recruiter").getD (Val.vList [])),
         ("requirements", (getAttr body "requirements").getD (Val.vList [])),
         ("documents", (getAttr body "documents").getD (Val.vList [])),
         ("createdAt", Val.vStr now),
         ("updatedAt", Val.vStr now)]
      if (dbGet table "jobId" genJobId).isSome then
        (errorResponse 409 "Job already exists" none, table)
      else
        (successResponse 201 (Val.vObj
          [("success", Val.vBool true),
           ("message", Val.vStr "Casting job created successfully"),
           ("job", Val.vObj job)]),
         table ++ [job])

/-- The getJobById handler (GET /casting/jobId). -/
def getJobById (table : Table) (pathJobId : Option String) : Response :=
  if !strTruthy pathJobId then
    errorResponse 400 "Missing required parameter: jobId" none
  else
    match dbGet table "jobId" (pathJobId.getD "") with
    | none => errorResponse 404 "Job not found" none
    | some item =>
      successResponse 200 (Val.vObj
        [("success", Val.vBool true), ("job", Val.vObj item)])

/-- The deleteJob handler (DELETE /casting/jobId). -/
def deleteJob (table : Table) (pathJobId : Option String) : Response × Table :=
  if !strTruthy pathJobId then
    (errorResponse 400 "Missing required parameter: jobId" none, table)
  else
    let jid := pathJobId.getD ""
    match dbGet table "jobId" jid with
    | none => (errorResponse 404 "Job not found" none, table)
    | some _ =>
      (successResponse 200 (Val.vObj
        [("success", Val.vBool true),
         ("message", Val.vStr "Job deleted successfully"),
         ("deletedJobId", Val.vStr jid)]),
       dbDelete table "jobId" jid)

/-- The getJobApplications handler (GET /casting/jobId/applications). -/
def getJobApplications (table : Table) (pathJobId : Option String) : Response :=
  if !strTruthy pathJobId then
    errorResponse 400 "Missing required parameter: jobId" none
  else
    let jid := pathJobId.getD ""
    match dbGet table "jobId" jid with
    | none => errorResponse 404 "Job not found" none
    | some item =>
      successResponse 200 (Val.vObj
        [("success", Val.vBool true),
         ("jobId", Val.vStr jid),
         ("applications", Val.vList (listOrEmpty (getAttr item "appliedBy"))),
         ("count", Val.vNum (listOrEmpty (getAttr item "appliedBy")).length)])

/-- The incrementJobView handler (PUT /casting/jobId/view). -/
def incrementJobView (table : Table) (pathJobId : Option String)
    (now : String) : Response × Table :=
  if !strTruthy pathJobId then
    (errorResponse 400 "Missing required parameter: jobId" none, table)
  else
    let jid := pathJobId.getD ""
    let newView := incrementedView
      (match dbGet table "jobId" jid with
       | some it => getAttr it "view"
       | none => none)
    (successResponse 200 (Val.vObj
      [("success", Val.vBool true),
       ("message", Val.vStr "Job view incremented"),
       ("view", newView)]),
     dbUpdate table "jobId" jid [("view", newView), ("updatedAt", Val.vStr now)])
/-- The JavaScript \s character class (ASCII whitespace, NBSP, the Unicode
space separators, line/paragraph separators and the BOM). -/
def jsSpace (c : Char) : Bool :=
  c == ' ' || c == '\t' || c == '\n' || c == '\r' ||
  c.toNat == 11 || c.toNat == 12 || c.toNat == 0xa0 || c.toNat == 0x1680 ||
  (decide (0x2000 ≤ c.toNat) && decide (c.toNat ≤ 0x200a)) ||
  c.toNat == 0x2028 || c.toNat == 0x2029 || c.toNat == 0x202f ||
  c.toNat == 0x205f || c.toNat == 0x3000 || c.toNat == 0xfeff

mutual

/-- JavaScript String() coercion of a JSON value, as used by template
literals, regex tests and parseInt on non-string inputs. -/
def templateStr : Val → String
  | Val.vNull => "null"
  | Val.vBool b => if b then "true" else "false"
  | Val.vNum n => toString n
  | Val.vStr s => s
  | Val.vList xs => templateStrList xs
  | Val.vObj _ => "[object Object]"

/-- Array.prototype.toString: the comma join, rendering null holes empty. -/
def templateStrList : List Val → String
  | [] => ""
  | [Val.vNull] => ""
  | [v] => templateStr v
  | Val.vNull :: rest => "," ++ templateStrList rest
  | v :: rest => templateStr v ++ "," ++ templateStrList rest

end

/-- The digit run consumed by parseInt, none when no digit leads. -/
def jsParseDigits (cs : List Char) : Option Int :=
  let ds := cs.takeWhile Char.isDigit
  if ds.isEmpty then none
  else some (Int.ofNat (ds.foldl (fun a c => a * 10 + (c.toNat - 48)) 0))

/-- parseInt(s, 10): strip leading whitespace, optional sign, leading
decimal digits; none models NaN. -/
def jsParseInt (s : String) : Option Int :=
  match s.data.dropWhile jsSpace with
  | '+' :: rest => jsParseDigits rest
  | '-' :: rest => (jsParseDigits rest).map (fun n => -n)
  | rest => jsParseDigits rest

/-- The regex /^[^\s@]+@[^\s@]+\.[^\s@]+$/: no whitespace anywhere, exactly
one @ with a nonempty local part, and a dot strictly inside the domain. -/
def emailFormatOk (s : String) : Bool :=
  let cs := s.data
  let localPart := cs.takeWhile (fun c => !(c == '@'))
  let domainPart := (cs.dropWhile (fun c => !(c == '@'))).drop 1
  (cs.filter (fun c => c == '@')).length == 1 &&
  cs.all (fun c => !jsSpace c) &&
  !localPart.isEmpty &&
  (domainPart.drop 1).dropLast.contains '.'

/-- The regex /^\+?[1-9]\d{1,14}$/ applied after stripping whitespace and
hyphens, as in phone_number.replace over \s|-. -/
def phoneFormatOk (s : String) : Bool :=
  let cs := s.data.filter (fun c => !(jsSpace c || c == '-'))
  let core := match cs with
    | '+' :: rest => rest
    | rest => rest
  match core with
  | [] => false
  | d :: rest =>
    decide ('1' ≤ d) && decide (d ≤ '9') &&
    rest.all Char.isDigit &&
    decide (1 ≤ rest.length) && decide (rest.length ≤ 14)

/-- The if-chain of password strength checks shared by signUp and
resetPassword; the length read yields undefined on a non-string, so only
strings can fail the first check, and the regex tests run on the String()
coercion. -/
def passwordWeakness (password : Val) : Option String :=
  if (match password with
      | Val.vStr s => decide (s.length < 8)
      | _ => false) then
    some "Password must be at least 8 characters"
  else if !((templateStr password).data.any
      (fun c => decide ('A' ≤ c) && decide (c ≤ 'Z'))) then
    some "Password must contain at least one uppercase letter"
  else if !((templateStr password).data.any
      (fun c => decide ('a' ≤ c) && decide (c ≤ 'z'))) then
    some "Password must contain at least one lowercase letter"
  else if !((templateStr password).data.any Char.isDigit) then
    some "Password must contain at least one number"
  else none

/-- parseInt(status, 10) on the raw body value. -/
def parsedStatus (status : Option Val) : Option Int :=
  match status with
  | some v => jsParseInt (templateStr v)
  | none => none

/-- appliedBy with the first application of the given user carrying the new
status attribute (findIndex takes the first match; the assignment adds or
overwrites that element's status with the raw body value). -/
def setApplicationStatus : List Val → String → Val → List Val
  | [], _, _ => []
  | app :: rest, uid, status =>
    if getProp app "userId" == some (Val.vStr uid) then
      (match app with
       | Val.vObj kvs => Val.vObj (setAttr kvs "status" status)
       | other => other) :: rest
    else app :: setApplicationStatus rest uid status

/-- The updateApplicationStatus handler (PUT /casting/jobId/applications/userId). -/
def updateApplicationStatus (table : Table) (pathJobId pathUserId : Option String)
    (body : Item) (now : String) : Response × Table :=
  if !strTruthy pathJobId || !strTruthy pathUserId then
    (errorResponse 400 "Missing required parameters: jobId, userId" none, table)
  else if !(match parsedStatus (getAttr body "status") with
            | some n => n == 1 || n == 2
            | none => false) then
    (errorResponse 400 "Invalid status. Must be 1 (Applied) or 2 (Shortlisted)" none,
     table)
  else
    let jid := pathJobId.getD ""
    let uid := pathUserId.getD ""
    match dbGet table "jobId" jid with
    | none => (errorResponse 404 "Job not found" none, table)
    | some job =>
      let appliedBy := listOrEmpty (getAttr job "appliedBy")
      if !(appliedBy.any (fun app => getProp app "userId" == some (Val.vStr uid))) then
        (errorResponse 404 "Application not found" none, table)
      else
        let newApps := setApplicationStatus appliedBy uid
          ((getAttr body "status").getD Val.vNull)
        let assigns := [("appliedBy", Val.vList newApps), ("updatedAt", Val.vStr now)]
        (successResponse 200 (Val.vObj
          [("success", Val.vBool true),
           ("message", Val.vStr "Application status updated"),
           ("job", Val.vObj (applyAssignments job assigns))]),
         dbUpdate table "jobId" jid assigns)

/-- One extracted application: the spread of the stored application entry
with the job identifiers written over it. -/
def withJobInfo (app : Val) (job : Item) : Val :=
  let extra := [("jobId", (getAttr job "jobId").getD Val.vNull),
                ("jobTitle", (getAttr job "jobTitle").getD Val.vNull),
                ("jobCategory", (getAttr job "jobCategory").getD Val.vNull)]
  match app with
  | Val.vObj kvs => Val.vObj (applyAssignments kvs extra)
  | _ => Val.vObj (applyAssignments [] extra)

/-- The extraction loop of getUserApplications over the scanned jobs. -/
def userApplicationsOf (items : List Item) (uid : String) : List Val :=
  (items.map (fun job =>
    ((listOrEmpty (getAttr job "appliedBy")).filter
      (fun app => getProp app "userId" == some (Val.vStr uid))).map
      (fun app => withJobInfo app job))).flatten

/-- The getUserApplications handler (GET /casting/applications/userId); the
filtered scan is the datastore's reply, passed as input. -/
def getUserApplications (pathUserId : Option String) (scanItems : List Item) :
    Response :=
  if !strTruthy pathUserId then
    errorResponse 400 "Missing required parameter: userId" none
  else
    let uid := pathUserId.getD ""
    let apps := userApplicationsOf scanItems uid
    successResponse 200 (Val.vObj
      [("success", Val.vBool true),
       ("userId", Val.vStr uid),
       ("applications", Val.vList apps),
       ("count", Val.vNum apps.length)])

/-- The searchJobs handler (GET /casting/search); like searchUsers, the
filtered scan is the datastore's reply. -/
def searchJobs (q searchType : Option String) (scanItems : List Item) : Response :=
  if !strTruthy q then
    errorResponse 400 "Missing required parameter: q" none
  else
    let tp := searchType.getD "category"
    if tp == "category" || tp == "title" || tp == "location" || tp == "tags" then
      successResponse 200 (Val.vObj
        [("success", Val.vBool true),
         ("query", Val.vStr (q.getD "")),
         ("type", Val.vStr tp),
         ("count", Val.vNum scanItems.length),
         ("items", Val.vList (scanItems.map Val.vObj))])
    else
      errorResponse 400 "Invalid search type. Use: category, title, location, or tags" none

/-- Outcome of the cognito.signUp call: the created user's sub, or a coded
service error. -/
inductive SignUpOutcome where
  | ok (userSub : String)
  | errCode (code message : String)

/-- Outcome of cognito.initiateAuth: tokens, a reply with no
AuthenticationResult, or a coded service error. -/
inductive SignInOutcome where
  | ok (accessToken idToken refreshToken : String) (expiresIn : Int)
  | okNoAuthResult
  | errCode (code message : String)

/-- Outcome of a cognito call whose success carries no payload the handler
reads (confirmSignUp, resendConfirmationCode, adminConfirmSignUp,
confirmForgotPassword). -/
inductive CognitoOutcome where
  | ok
  | errCode (code message : String)

/-- Outcome of cognito.forgotPassword: the optional CodeDeliveryDetails
object, or a coded service error. -/
inductive ForgotPasswordOutcome where
  | ok (codeDeliveryDetails : Option Val)
  | errCode (code message : String)

/-- if (email) { !emailRegex.test(email) } on the raw body value. -/
def emailFieldBad (email : Option Val) : Bool :=
  match email with
  | some v => truthy v && !emailFormatOk (templateStr v)
  | none => false

/-- if (phone_number) { !phoneRegex.test(phone_number.replace(..)) }. -/
def phoneFieldBad (phone : Option Val) : Bool :=
  match phone with
  | some v => truthy v && !phoneFormatOk (templateStr v)
  | none => false

/-- The catch-block dispatch of signUp on the cognito error code. -/
def signUpErrorOf (code message : String) : Response :=
  if code == "UsernameExistsException" then
    errorResponse 409 "Email or phone number already registered" none
  else if code == "InvalidPasswordException" then
    errorResponse 400 "Password does not meet requirements" none
  else if code == "InvalidParameterException" then
    errorResponse 400 "Invalid parameters" (some (Val.vStr message))
  else errorResponse 500 "Signup failed" (some (Val.vStr message))

/-- The signUp handler (POST /auth/signup). -/
def signUp (body : Item) (outcome : SignUpOutcome) : Response :=
  let email := getAttr body "email"
  let phone := getAttr body "phone_number"
  let password := getAttr body "password"
  let name := getAttr body "name"
  if (!truthyOpt email && !truthyOpt phone) || !truthyOpt password ||
      !truthyOpt name then
    errorResponse 400 "Missing required fields: (email or phone_number), password, name" none
  else if truthyOpt email && truthyOpt phone then
    errorResponse 400 "Provide either email or phone_number, not both" none
  else if emailFieldBad email then
    errorResponse 400 "Invalid email format" none
  else if phoneFieldBad phone then
    errorResponse 400 "Invalid phone number format. Use E.164 format: +country code + number" none
  else
    match passwordWeakness (password.getD Val.vNull) with
    | some msg => errorResponse 400 msg none
    | none =>
      match outcome with
      | SignUpOutcome.ok userSub =>
        successResponse 201 (Val.vObj
          [("success", Val.vBool true),
           ("message", Val.vStr "User registered successfully. Check your email/SMS for confirmation code."),
           ("userId", Val.vStr userSub),
           ("userConfirmed", Val.vBool false)])
      | SignUpOutcome.errCode code msg => signUpErrorOf code msg

/-- The catch-block dispatch of signIn on the cognito error code. -/
def signInErrorOf (code message : String) : Response :=
  if code == "UserNotFoundException" then
    errorResponse 401 "Email or phone number not registered" none
  else if code == "NotAuthorizedException" then
    errorResponse 401 "Invalid credentials" none
  else if code == "UserNotConfirmedException" then
    errorResponse 403 "User email or phone not confirmed. Check your email/SMS for confirmation link." none
  else if code == "InvalidParameterException" then
    errorResponse 400 "Invalid parameters" (some (Val.vStr message))
  else errorResponse 500 "Login failed" (some (Val.vStr message))

/-- The signIn handler (POST /auth/login). -/
def signIn (body : Item) (outcome : SignInOutcome) : Response :=
  let email := getAttr body "email"
  let phone := getAttr body "phone_number"
  let password := getAttr body "password"
  if (!truthyOpt email && !truthyOpt phone) || !truthyOpt password then
    errorResponse 400 "Missing required fields: (email or phone_number), password" none
  else if truthyOpt email && truthyOpt phone then
    errorResponse 400 "Provide either email or phone_number, not both" none
  else
    match outcome with
    | SignInOutcome.ok accessToken idToken refreshToken expiresIn =>
      successResponse 200 (Val.vObj
        [("success", Val.vBool true),
         ("message", Val.vStr "Login successful"),
         ("tokens", Val.vObj
           [("accessToken", Val.vStr accessToken),
            ("idToken", Val.vStr idToken),
            ("refreshToken", Val.vStr refreshToken),
            ("expiresIn", Val.vNum expiresIn)])])
    | SignInOutcome.okNoAuthResult =>
      errorResponse 401 "Authentication failed" none
    | SignInOutcome.errCode code msg => signInErrorOf code msg

/-- The catch-block dispatch of confirmSignUp on the cognito error code. -/
def confirmSignUpErrorOf (code message : String) : Response :=
  if code == "UserNotFoundException" then
    errorResponse 404 "Email or phone number not registered" none
  else if code == "CodeMismatchException" then
    errorResponse 400 "Invalid confirmation code" none
  else if code == "ExpiredCodeException" then
    errorResponse 400 "Confirmation code has expired. Please request a new one." none
  else if code == "UserAlreadyConfirmedException" then
    errorResponse 400 "User email/phone already confirmed" none
  else if code == "InvalidParameterException" then
    errorResponse 400 "Invalid parameters" (some (Val.vStr message))
  else errorResponse 500 "Email/Phone confirmation failed" (some (Val.vStr message))

/-- The confirmSignUp handler (POST /auth/confirm). -/
def confirmSignUp (body : Item) (outcome : CognitoOutcome) : Response :=
  let email := getAttr body "email"
  let phone := getAttr body "phone_number"
  if (!truthyOpt email && !truthyOpt phone) ||
      !truthyOpt (getAttr body "confirmationCode") then
    errorResponse 400 "Missing required fields: (email or phone_number), confirmationCode" none
  else if truthyOpt email && truthyOpt phone then
    errorResponse 400 "Provide either email or phone_number, not both" none
  else
    match outcome with
    | CognitoOutcome.ok =>
      successResponse 200 (Val.vObj
        [("success", Val.vBool true),
         ("message", Val.vStr "Email/Phone confirmed successfully. You can now login.")])
    | CognitoOutcome.errCode code msg => confirmSignUpErrorOf code msg

/-- The catch-block dispatch of resendConfirmationCode. -/
def resendCodeErrorOf (code message : String) : Response :=
  if code == "UserNotFoundException" then
    errorResponse 404 "Email or phone number not registered" none
  else if code == "UserAlreadyConfirmedException" then
    errorResponse 400 "User email/phone already confirmed" none
  else if code == "InvalidParameterException" then
    errorResponse 400 "Invalid parameters" (some (Val.vStr message))
  else if code == "LimitExceededException" then
    errorResponse 429 "Too many requests. Please try again later." none
  else errorResponse 500 "Resend confirmation code failed" (some (Val.vStr message))

/-- The resendConfirmationCode handler (POST /auth/resend-code). -/
def resendConfirmationCode (body : Item) (outcome : CognitoOutcome) : Response :=
  let email := getAttr body "email"
  let phone := getAttr body "phone_number"
  if !truthyOpt email && !truthyOpt phone then
    errorResponse 400 "Missing required field: email or phone_number" none
  else if truthyOpt email && truthyOpt phone then
    errorResponse 400 "Provide either email or phone_number, not both" none
  else
    match outcome with
    | CognitoOutcome.ok =>
      successResponse 200 (Val.vObj
        [("success", Val.vBool true),
         ("message", Val.vStr "Confirmation code resent to your email or phone")])
    | CognitoOutcome.errCode code msg => resendCodeErrorOf code msg

/-- The catch-block dispatch of adminConfirmUser. -/
def adminConfirmErrorOf (code message : String) : Response :=
  if code == "UserNotFoundException" then
    errorResponse 404 "Email or phone number not registered" none
  else if code == "UserAlreadyConfirmedException" then
    errorResponse 400 "User email/phone already confirmed" none
  else if code == "InvalidParameterException" then
    errorResponse 400 "Invalid parameters" (some (Val.vStr message))
  else if code == "NotAuthorizedException" then
    errorResponse 403 "Not authorized to perform this action" none
  else errorResponse 500 "User confirmation failed" (some (Val.vStr message))

/-- The adminConfirmUser handler (POST /auth/admin-confirm); the USER_POOL_ID
environment variable is an input. -/
def adminConfirmUser (body : Item) (userPoolId : Option String)
    (outcome : CognitoOutcome) : Response :=
  let email := getAttr body "email"
  let phone := getAttr body "phone_number"
  if !truthyOpt email && !truthyOpt phone then
    errorResponse 400 "Missing required field: email or phone_number" none
  else if truthyOpt email && truthyOpt phone then
    errorResponse 400 "Provide either email or phone_number, not both" none
  else
    let username := jsOr email (phone.getD Val.vNull)
    if !strTruthy userPoolId then
      errorResponse 500 "Server configuration error" none
    else
      match outcome with
      | CognitoOutcome.ok =>
        successResponse 200 (Val.vObj
          [("success", Val.vBool true),
           ("message", Val.vStr ("User " ++ templateStr username ++
             " confirmed successfully. They can now login.")),
           ("confirmedUser", username)])
      | CognitoOutcome.errCode code msg => adminConfirmErrorOf code msg

/-- A JSON key that JSON.stringify keeps only when the value is defined. -/
def optField (k : String) (v : Option Val) : List (String × Val) :=
  match v with
  | some x => [(k, x)]
  | none => []

/-- The catch-block dispatch of forgotPassword. -/
def forgotPasswordErrorOf (code message : String) : Response :=
  if code == "UserNotFoundException" then
    errorResponse 404 "Email or phone number not registered" none
  else if code == "UserNotConfirmedException" then
    errorResponse 403 "User email or phone not confirmed. Please confirm your account first." none
  else if code == "InvalidParameterException" then
    errorResponse 400 "Invalid parameters" (some (Val.vStr message))
  else if code == "LimitExceededException" then
    errorResponse 429 "Too many requests. Please try again later." none
  else errorResponse 500 "Failed to initiate password reset" (some (Val.vStr message))

/-- The forgotPassword handler (POST /auth/forgot-password). -/
def forgotPassword (body : Item) (outcome : ForgotPasswordOutcome) : Response :=
  let email := getAttr body "email"
  let phone := getAttr body "phone_number"
  if !truthyOpt email && !truthyOpt phone then
    errorResponse 400 "Missing required field: email or phone_number" none
  else if truthyOpt email && truthyOpt phone then
    errorResponse 400 "Provide either email or phone_number, not both" none
  else
    match outcome with
    | ForgotPasswordOutcome.ok cdd =>
      successResponse 200 (Val.vObj
        [("success", Val.vBool true),
         ("message", Val.vStr "Password reset code has been sent to your email or phone number"),
         ("codeDeliveryDetails", Val.vObj
           (optField "destination" (getPath cdd "Destination") ++
            optField "deliveryMedium" (getPath cdd "DeliveryMedium") ++
            optField "attributeName" (getPath cdd "AttributeName")))])
    | ForgotPasswordOutcome.errCode code msg => forgotPasswordErrorOf code msg

/-- The catch-block dispatch of resetPassword. -/
def resetPasswordErrorOf (code message : String) : Response :=
  if code == "UserNotFoundException" then
    errorResponse 404 "Email or phone number not registered" none
  else if code == "CodeMismatchException" then
    errorResponse 400 "Invalid or expired reset code" none
  else if code == "ExpiredCodeException" then
    errorResponse 400 "Reset code has expired. Please request a new one." none
  else if code == "InvalidPasswordException" then
    errorResponse 400 "Password does not meet requirements" none
  else if code == "InvalidParameterException" then
    errorResponse 400 "Invalid parameters" (some (Val.vStr message))
  else if code == "LimitExceededException" then
    errorResponse 429 "Too many attempts. Please try again later." none
  else errorResponse 500 "Password reset failed" (some (Val.vStr message))

/-- The resetPassword handler (POST /auth/reset-password). -/
def resetPassword (body : Item) (outcome : CognitoOutcome) : Response :=
  let email := getAttr body "email"
  let phone := getAttr body "phone_number"
  if (!truthyOpt email && !truthyOpt phone) ||
      !truthyOpt (getAttr body "confirmationCode") ||
      !truthyOpt (getAttr body "newPassword") then
    errorResponse 400 "Missing required fields: (email or phone_number), confirmationCode, newPassword" none
  else if truthyOpt email && truthyOpt phone then
    errorResponse 400 "Provide either email or phone_number, not both" none
  else
    match passwordWeakness ((getAttr body "newPassword").getD Val.vNull) with
    | some msg => errorResponse 400 msg none
    | none =>
      match outcome with
      | CognitoOutcome.ok =>
        successResponse 200 (Val.vObj
          [("success", Val.vBool true),
           ("message", Val.vStr "Password reset successfully. You can now login with your new password.")])
      | CognitoOutcome.errCode code msg => resetPasswordErrorOf code msg

/-- The getTasks handler: the raw DocumentClient scan reply is stringified
as the body, with no headers and no success/message envelope. -/
def getTasks (scanItems : List Item) : Response :=
  { statusCode := 200,
    headers := [],
    body := Val.vObj
      [("Items", Val.vList (scanItems.map Val.vObj)),
       ("Count", Val.vNum scanItems.length),
       ("ScannedCount", Val.vNum scanItems.length)] }
/-- C8 amended: every response of the user, casting and auth handlers
carries the fixed CORS header set; every failure body has success:false and
a message (plus details when supplied); every success body has
success:true — but the success responses of getUserById, getUserByUsername,
listUsers, searchUsers, getJobById, listJobs, getJobApplications,
getUserApplications and searchJobs omit the message field, and the task
handlers (createTask, getTasks) return bare JSON bodies with no envelope
and no headers at all. -/
theorem handlers_cors_and_envelope :
    (∀ table body gid now, envelopeOk (createUser table body gid now).1) ∧
    (∀ table pid, envelopeOk (getUserById table pid)) ∧
    (∀ table pun, envelopeOk (getUserByUsername table pun)) ∧
    (∀ table pid body now, envelopeOk (updateUser table pid body now).1) ∧
    (∀ table pid, envelopeOk (deleteUser table pid).1) ∧
    (∀ items lek, envelopeOk (listUsersResponse items lek)) ∧
    (∀ table pid now, envelopeOk (incrementUserView table pid now).1) ∧
    (∀ table pid body gid now,
      envelopeOk (addWorkExperience table pid body gid now).1) ∧
    (∀ table pid body gid now,
      envelopeOk (addPortfolioItem table pid body gid now).1) ∧
    (∀ table pid body gcid gchid now,
      envelopeOk (addConnection table pid body gcid gchid now).1) ∧
    (∀ q tp items, envelopeOk (searchUsers q tp items)) ∧
    (∀ table body gid now, envelopeOk (createJob table body gid now).1) ∧
    (∀ table pjid, envelopeOk (getJobById table pjid)) ∧
    (∀ items lek, envelopeOk (listJobsResponse items lek)) ∧
    (∀ table pjid body now, envelopeOk (updateJob table pjid body now).1) ∧
    (∀ table pjid, envelopeOk (deleteJob table pjid).1) ∧
    (∀ table pjid body gaid now,
      envelopeOk (applyForJob table pjid body gaid now).1) ∧
    (∀ table pjid, envelopeOk (getJobApplications table pjid)) ∧
    (∀ table pjid puid body now,
      envelopeOk (updateApplicationStatus table pjid puid body now).1) ∧
    (∀ table pjid now, envelopeOk (incrementJobView table pjid now).1) ∧
    (∀ table pjid body gdid now,
      envelopeOk (addDocument table pjid body gdid now).1) ∧
    (∀ table pjid pdid now, envelopeOk (removeDocument table pjid pdid now).1) ∧
    (∀ puid items, envelopeOk (getUserApplications puid items)) ∧
    (∀ q tp items, envelopeOk (searchJobs q tp items)) ∧
    (∀ body outcome, envelopeOk (signUp body outcome)) ∧
    (∀ body outcome, envelopeOk (signIn body outcome)) ∧
    (∀ body outcome, envelopeOk (confirmSignUp body outcome)) ∧
    (∀ body outcome, envelopeOk (resendConfirmationCode body outcome)) ∧
    (∀ body upid outcome, envelopeOk (adminConfirmUser body upid outcome)) ∧
    (∀ body outcome, envelopeOk (forgotPassword body outcome)) ∧
    (∀ body outcome, envelopeOk (resetPassword body outcome)) ∧
    (∀ table data, (createTask table data).1.headers = []) ∧
    (∀ items, (getTasks items).headers = [] ∧
      getProp (getTasks items).body "success" = none) ∧
    (∀ table pid, (getUserById table pid).statusCode < 400 →
      getProp (getUserById table pid).body "message" = none) ∧
    (∀ table pun, (getUserByUsername table pun).statusCode < 400 →
      getProp (getUserByUsername table pun).body "message" = none) ∧
    (∀ items lek, getProp (listUsersResponse items lek).body "message" = none) ∧
    (∀ q tp items, (searchUsers q tp items).statusCode < 400 →
      getProp (searchUsers q tp items).body "message" = none) ∧
    (∀ table pjid, (getJobById table pjid).statusCode < 400 →
      getProp (getJobById table pjid).body "message" = none) ∧
    (∀ items lek, getProp (listJobsResponse items lek).body "message" = none) ∧
    (∀ table pjid, (getJobApplications table pjid).statusCode < 400 →
      getProp (getJobApplications table pjid).body "message" = none) ∧
    (∀ puid items, (getUserApplications puid items).statusCode < 400 →
      getProp (getUserApplications puid items).body "message" = none) ∧
    (∀ q tp items, (searchJobs q tp items).statusCode < 400 →
      getProp (searchJobs q tp items).body "message" = none) := by
  refine ⟨?_, ?_, ?_, ?_, ?_, ?_, ?_, ?_, ?_, ?_, ?_, ?_, ?_, ?_, ?_, ?_,
    ?_, ?_, ?_, ?_, ?_, ?_, ?_, ?_, ?_, ?_, ?_, ?_, ?_, ?_, ?_, ?_, ?_,
    ?_, ?_, ?_, ?_, ?_, ?_, ?_, ?_, ?_⟩
  · intro table body gid now
    simp only [createUser]
    repeat' split
    all_goals first
      | exact envelopeOk_error _ _ _ (by omega)
      | exact envelopeOk_success _ _ (by omega)
  · intro table pid
    simp only [getUserById]
    repeat' split
    all_goals first
      | exact envelopeOk_error _ _ _ (by omega)
      | exact envelopeOk_success _ _ (by omega)
  · intro table pun
    simp only [getUserByUsername]
    repeat' split
    all_goals first
      | exact envelopeOk_error _ _ _ (by omega)
      | exact envelopeOk_success _ _ (by omega)
  · intro table pid body now
    simp only [updateUser]
    repeat' split
    all_goals first
      | exact envelopeOk_error _ _ _ (by omega)
      | exact envelopeOk_success _ _ (by omega)
  · intro table pid
    simp only [deleteUser]
    repeat' split
    all_goals first
      | exact envelopeOk_error _ _ _ (by omega)
      | exact envelopeOk_success _ _ (by omega)
  · intro items lek
    exact envelopeOk_success _ _ (by omega)
  · intro table pid now
    simp only [incrementUserView]
    repeat' split
    all_goals first
      | exact envelopeOk_error _ _ _ (by omega)
      | exact envelopeOk_success _ _ (by omega)
  · intro table pid body gid now
    simp only [addWorkExperience]
    repeat' split
    all_goals first
      | exact envelopeOk_error _ _ _ (by omega)
      | exact envelopeOk_success _ _ (by omega)
  · intro table pid body gid now
    simp only [addPortfolioItem]
    repeat' split
    all_goals first
      | exact envelopeOk_error _ _ _ (by omega)
      | exact envelopeOk_success _ _ (by omega)
  · intro table pid body gcid gchid now
    simp only [addConnection]
    repeat' split
    all_goals first
      | exact envelopeOk_error _ _ _ (by omega)
      | exact envelopeOk_success _ _ (by omega)
  · intro q tp items
    simp only [searchUsers]
    repeat' split
    all_goals first
      | exact envelopeOk_error _ _ _ (by omega)
      | exact envelopeOk_success _ _ (by omega)
  · intro table body gid now
    simp only [createJob]
    repeat' split
    all_goals first
      | exact envelopeOk_error _ _ _ (by omega)
      | exact envelopeOk_success _ _ (by omega)
  · intro table pjid
    simp only [getJobById]
    repeat' split
    all_goals first
      | exact envelopeOk_error _ _ _ (by omega)
      | exact envelopeOk_success _ _ (by omega)
  · intro items lek
    exact envelopeOk_success _ _ (by omega)
  · intro table pjid body now
    simp only [updateJob]
    repeat' split
    all_goals first
      | exact envelopeOk_error _ _ _ (by omega)
      | exact envelopeOk_success _ _ (by omega)
  · intro table pjid
    simp only [deleteJob]
    repeat' split
    all_goals first
      | exact envelopeOk_error _ _ _ (by omega)
      | exact envelopeOk_success _ _ (by omega)
  · intro table pjid body gaid now
    simp only [applyForJob]
    repeat' split
    all_goals first
      | exact envelopeOk_error _ _ _ (by omega)
      | exact envelopeOk_success _ _ (by omega)
  · intro table pjid
    simp only [getJobApplications]
    repeat' split
    all_goals first
      | exact envelopeOk_error _ _ _ (by omega)
      | exact envelopeOk_success _ _ (by omega)
  · intro table pjid puid body now
    simp only [updateApplicationStatus]
    repeat' split
    all_goals first
      | exact envelopeOk_error _ _ _ (by omega)
      | exact envelopeOk_success _ _ (by omega)
  · intro table pjid now
    simp only [incrementJobView]
    repeat' split
    all_goals first
      | exact envelopeOk_error _ _ _ (by omega)
      | exact envelopeOk_success _ _ (by omega)
  · intro table pjid body gdid now
    simp only [addDocument]
    repeat' split
    all_goals first
      | exact envelopeOk_error _ _ _ (by omega)
      | exact envelopeOk_success _ _ (by omega)
  · intro table pjid pdid now
    simp only [removeDocument]
    repeat' split
    all_goals first
      | exact envelopeOk_error _ _ _ (by omega)
      | exact envelopeOk_success _ _ (by omega)
  · intro puid items
    simp only [getUserApplications]
    repeat' split
    all_goals first
      | exact envelopeOk_error _ _ _ (by omega)
      | exact envelopeOk_success _ _ (by omega)
  · intro q tp items
    simp only [searchJobs]
    repeat' split
    all_goals first
      | exact envelopeOk_error _ _ _ (by omega)
      | exact envelopeOk_success _ _ (by omega)
  · intro body outcome
    simp only [signUp, signUpErrorOf]
    repeat' split
    all_goals first
      | exact envelopeOk_error _ _ _ (by omega)
      | exact envelopeOk_success _ _ (by omega)
  · intro body outcome
    simp only [signIn, signInErrorOf]
    repeat' split
    all_goals first
      | exact envelopeOk_error _ _ _ (by omega)
      | exact envelopeOk_success _ _ (by omega)
  · intro body outcome
    simp only [confirmSignUp, confirmSignUpErrorOf]
    repeat' split
    all_goals first
      | exact envelopeOk_error _ _ _ (by omega)
      | exact envelopeOk_success _ _ (by omega)
  · intro body outcome
    simp only [resendConfirmationCode, resendCodeErrorOf]
    repeat' split
    all_goals first
      | exact envelopeOk_error _ _ _ (by omega)
      | exact envelopeOk_success _ _ (by omega)
  · intro body upid outcome
    simp only [adminConfirmUser, adminConfirmErrorOf]
    repeat' split
    all_goals first
      | exact envelopeOk_error _ _ _ (by omega)
      | exact envelopeOk_success _ _ (by omega)
  · intro body outcome
    simp only [forgotPassword, forgotPasswordErrorOf]
    repeat' split
    all_goals first
      | exact envelopeOk_error _ _ _ (by omega)
      | exact envelopeOk_success _ _ (by omega)
  · intro body outcome
    simp only [resetPassword, resetPasswordErrorOf]
    repeat' split
    all_goals first
      | exact envelopeOk_error _ _ _ (by omega)
      | exact envelopeOk_success _ _ (by omega)
  · intro table data
    simp only [createTask]
    repeat' split
    all_goals rfl
  · intro items
    exact ⟨rfl, rfl⟩
  · intro table pid
    simp only [getUserById]
    repeat' split
    all_goals first
      | (intro h; exact absurd h (by decide))
      | (intro h1; rfl)
  · intro table pun
    simp only [getUserByUsername]
    repeat' split
    all_goals first
      | (intro h; exact absurd h (by decide))
      | (intro h1; rfl)
  · intro items lek
    rfl
  · intro q tp items
    simp only [searchUsers]
    repeat' split
    all_goals first
      | (intro h; exact absurd h (by decide))
      | (intro h1; rfl)
  · intro table pjid
    simp only [getJobById]
    repeat' split
    all_goals first
      | (intro h; exact absurd h (by decide))
      | (intro h1; rfl)
  · intro items lek
    rfl
  · intro table pjid
    simp only [getJobApplications]
    repeat' split
    all_goals first
      | (intro h; exact absurd h (by decide))
      | (intro h1; rfl)
  · intro puid items
    simp only [getUserApplications]
    repeat' split
    all_goals first
      | (intro h; exact absurd h (by decide))
      | (intro h1; rfl)
  · intro q tp items
    simp only [searchJobs]
    repeat' split
    all_goals first
      | (intro h; exact absurd h (by decide))
      | (intro h1; rfl)

theorem handlers_cors_and_envelope_witness :
    envelopeOk (createUser [] [] "g1" "t0").1 ∧
    envelopeOk (getUserByUsername [] (some "ann")) ∧
    envelopeOk (signUp [] (SignUpOutcome.ok "sub-1")) ∧
    (getTasks []).headers = [] :=
  ⟨handlers_cors_and_envelope.1 [] [] "g1" "t0",
   handlers_cors_and_envelope.2.2.1 [] (some "ann"),
   handlers_cors_and_envelope.2.2.2.2.2.2.2.2.2.2.2.2.2.2.2.2.2.2.2.2.2.2.2.2.1
     [] (SignUpOutcome.ok "sub-1"),
   (handlers_cors_and_envelope.2.2.2.2.2.2.2.2.2.2.2.2.2.2.2.2.2.2.2.2.2.2.2.2.2.2.2.2.2.2.2.2.1
     []).1⟩
